import Mathlib

/-!
# SpiderGame: the surface-walking movement controller `ABaseSpider`

A shallow embedding of `Source/Spidergame/BaseSpider.{h,cpp}`.

* `float`/`double` quantities are rational numbers (exact arithmetic).
* The members of `ABaseSpider` that the controller reads or writes are the fields of the
  structure `ABaseSpider`, with the defaults of the header.  The scene-graph data the
  controller mutates (root location and rotation, relative rotation of the body and of the
  camera, the three audio components) are fields as well.
* Everything the controller asks of the game engine (ray casts, square roots, arc cosine,
  rotation algebra, the possessing controller, the blueprint event) is a field of `Engine`.
* A member function that dereferences a pointer which may be null returns `Option`;
  `none` is the null dereference.
-/

namespace SpiderGame

/-! ## Engine value types -/

/-- Engine type `FVector`. -/
@[ext] structure FVector where
  X : ℚ := 0
  Y : ℚ := 0
  Z : ℚ := 0
deriving DecidableEq

namespace FVector

/-- The vector `{}` / `FVector::ZeroVector`. -/
def zero : FVector := ⟨0, 0, 0⟩

/-- The constant `FVector::UnitZ()`. -/
def UnitZ : FVector := ⟨0, 0, 1⟩

/-- Component-wise `operator+`. -/
def add (a b : FVector) : FVector := ⟨a.X + b.X, a.Y + b.Y, a.Z + b.Z⟩

/-- Component-wise `operator-`. -/
def sub (a b : FVector) : FVector := ⟨a.X - b.X, a.Y - b.Y, a.Z - b.Z⟩

/-- Scaling `operator*(scalar)`. -/
def smul (a : FVector) (k : ℚ) : FVector := ⟨a.X * k, a.Y * k, a.Z * k⟩

/-- Dot product `FVector::Dot`. -/
def Dot (a b : FVector) : ℚ := a.X * b.X + a.Y * b.Y + a.Z * b.Z

/-- Squared length `FVector::SquaredLength`. -/
def SquaredLength (a : FVector) : ℚ := a.X * a.X + a.Y * a.Y + a.Z * a.Z

/-- Comparison `FVector::Equals(V, Tolerance)`: every component within the tolerance. -/
def Equals (a b : FVector) (Tolerance : ℚ) : Bool :=
  decide (|a.X - b.X| ≤ Tolerance) && decide (|a.Y - b.Y| ≤ Tolerance) &&
    decide (|a.Z - b.Z| ≤ Tolerance)

end FVector

/-- Engine type `FRotator`, constructed in the order pitch, yaw, roll. -/
@[ext] structure FRotator where
  Pitch : ℚ := 0
  Yaw : ℚ := 0
  Roll : ℚ := 0
deriving DecidableEq

/-- Scaling `FRotator::operator*(scalar)`. -/
def FRotator.smul (r : FRotator) (k : ℚ) : FRotator := ⟨r.Pitch * k, r.Yaw * k, r.Roll * k⟩

/-- What the controller reads of an `AActor`: its tag list. -/
structure AActor where
  Tags : List String := []
deriving DecidableEq

/-- What the controller reads of an `FHitResult`.  `IsValidBlockingHit` is the value of the
accessor of that name, `Actor` the value of `GetActor()` (`none` for a null pointer).  The
default value is the empty sample `FHitResult{}`. -/
structure FHitResult where
  IsValidBlockingHit : Bool := false
  Location : FVector := FVector.zero
  ImpactNormal : FVector := FVector.zero
  Distance : ℚ := 0
  Actor : Option AActor := none
deriving DecidableEq

/-- The enumeration `ABaseSpider::State`. -/
inductive State where
  | Ground
  | Transition
  | Fall
  | OnWeb
  | Jumping
deriving DecidableEq

/-- The constant `FLT_EPSILON` (2⁻²³). -/
def FLT_EPSILON : ℚ := 1 / 8388608

/-- The constant `FLT_MAX`. -/
def FLT_MAX : ℚ := 340282346638528859811704183484516925440

/-- The constant `ABaseSpider::RAYCAST_LENGTH`. -/
def RAYCAST_LENGTH : ℚ := 1000

/-- The constant `ABaseSpider::NORMAL_TOLERANCE`. -/
def NORMAL_TOLERANCE : ℚ := 1 / 10

/-- The engine constant `UE_SMALL_NUMBER`, default tolerance of `FVector::Normalize`. -/
def UE_SMALL_NUMBER : ℚ := 1 / 100000000

/-- The engine constant `UE_KINDA_SMALL_NUMBER`, default tolerance of `FVector::Equals`. -/
def UE_KINDA_SMALL_NUMBER : ℚ := 1 / 10000

/-- The services of the game engine used by the controller. -/
structure Engine where
  /-- Function `FMath::InvSqrt`. -/
  InvSqrt : ℚ → ℚ
  /-- Function `FMath::Acos`. -/
  Acos : ℚ → ℚ
  /-- Query `GetWorld()->LineTraceSingleByChannel(Out, Start, End, ECC_Visibility, Params)`
  with the actor itself ignored: the sample written to `Out`. -/
  LineTrace : FVector → FVector → FHitResult
  /-- Value of `FQuat::FindBetweenVectors(A, B).Rotator()`. -/
  FindBetweenVectors : FVector → FVector → FRotator
  /-- World rotation of a component after `AddWorldRotation(Delta)`. -/
  AddWorldRotation : FRotator → FRotator → FRotator
  /-- Value of `Spider->GetUpVector()` for a root world rotation and a relative rotation of
  the body. -/
  GetUpVector : FRotator → FRotator → FVector
  /-- Value of `Spider->GetForwardVector()`. -/
  GetForwardVector : FRotator → FRotator → FVector
  /-- Value of `Spider->GetRightVector()`. -/
  GetRightVector : FRotator → FRotator → FVector
  /-- Value of `GetActorUpVector()` for a root world rotation. -/
  GetActorUpVector : FRotator → FVector
  /-- Value of `GetController()`: the control rotation of the possessing controller, `none`
  when no controller is attached (null pointer). -/
  Controller : Option FRotator
  /-- Value of `Collider->GetScaledCapsuleRadius()`. -/
  ScaledCapsuleRadius : ℚ
  /-- The blueprint event `MountWebLine(Actor)`: the end points its handler passes to
  `SetClosestWeb`, `none` when it does not call it. -/
  MountWebLine : AActor → Option (FVector × FVector)
  /-- Root location after `AddActorWorldOffset(Delta, true)` (a swept move). -/
  SweepMove : FVector → FVector → FVector

/-- The members of `ABaseSpider` together with the component data it mutates. -/
structure ABaseSpider where
  MovementSpeed : ℚ := 1000
  MaxCameraOffset : ℚ := 50
  WallInterpolateTime : ℚ := 7 / 10
  LargeLerpCompensation : ℚ := 2
  JumpForwardScale : ℚ := 1 / 2
  Gravity : ℚ := 2000
  Drag : ℚ := 93 / 100
  WallCheckDistance : ℚ := 100
  GroundCheckDistance : ℚ := 50
  WebTag : String := "Web"
  WebLineTag : String := "WebLine"
  JumpImmuneTime : ℚ := 1 / 10
  m_State : State := State.Fall
  m_OldState : State := State.Fall
  m_Velocity : FVector := FVector.zero
  m_HitWeb : Bool := false
  m_JumpImmuneTimer : ℚ := 0
  m_DownHitResult : FHitResult := {}
  m_ForwardHitResult : FHitResult := {}
  m_StickPosition : FVector := FVector.zero
  m_StickRotation : FRotator := {}
  m_LerpTimer : ℚ := FLT_MAX
  m_LerpRatio : ℚ := 0
  m_StartLinePoint : FVector := FVector.zero
  m_EndLinePoint : FVector := FVector.zero
  /-- World location of the root component `Collider` (`GetActorLocation()`). -/
  ColliderLocation : FVector := FVector.zero
  /-- World rotation of the root component `Collider`. -/
  ColliderRotation : FRotator := {}
  /-- Relative rotation of the scene component `Spider`. -/
  SpiderRelativeRotation : FRotator := {}
  /-- Relative rotation of the component `Camera`. -/
  CameraRelativeRotation : FRotator := {}
  /-- Whether `WalkSound` is playing. -/
  WalkSound : Bool := false
  /-- Whether `WebWalkSound` is playing. -/
  WebWalkSound : Bool := false
  /-- Whether `LandingSound` is playing. -/
  LandingSound : Bool := false
  /-- The pawn's pending movement input (`ControlInputVector`). -/
  ControlInputVector : FVector := FVector.zero

/-- Engine function `FVector::Normalize()` with its default tolerance: a vector whose squared
length exceeds the tolerance is scaled by the inverse square root of that squared length, any
other vector is left as it is. -/
def Normalize (E : Engine) (v : FVector) : FVector :=
  if v.SquaredLength > UE_SMALL_NUMBER then v.smul (E.InvSqrt v.SquaredLength) else v

/-- Engine function `FMath::Sign`. -/
def Sign (x : ℚ) : ℚ := if x > 0 then 1 else if x < 0 then -1 else 0

/-- Value of `Spider->GetUpVector()`. -/
def SpiderUp (E : Engine) (s : ABaseSpider) : FVector :=
  E.GetUpVector s.ColliderRotation s.SpiderRelativeRotation

/-- Value of `Spider->GetForwardVector()`. -/
def SpiderForward (E : Engine) (s : ABaseSpider) : FVector :=
  E.GetForwardVector s.ColliderRotation s.SpiderRelativeRotation

/-- Value of `Spider->GetRightVector()`. -/
def SpiderRight (E : Engine) (s : ABaseSpider) : FVector :=
  E.GetRightVector s.ColliderRotation s.SpiderRelativeRotation

/-- Pawn function `ConsumeMovementInputVector()`: returns the pending input and clears it. -/
def ConsumeMovementInputVector (s : ABaseSpider) : FVector × ABaseSpider :=
  (s.ControlInputVector, { s with ControlInputVector := FVector.zero })

/-! ## Helpers (`#pragma region Helpers`) -/

/-- Member `ABaseSpider::IsTransitioning`. -/
def IsTransitioning (s : ABaseSpider) : Bool :=
  decide (0 ≤ s.m_LerpTimer) && decide (s.m_LerpTimer ≤ 1)

/-- Member `ABaseSpider::IsGrounded`. -/
def IsGrounded (s : ABaseSpider) : Bool :=
  s.m_DownHitResult.IsValidBlockingHit &&
    decide (s.m_DownHitResult.Distance ≤ s.GroundCheckDistance)

/-- Member `ABaseSpider::IsJumping`. -/
def IsJumping (s : ABaseSpider) : Bool := decide (s.m_JumpImmuneTimer > 0)

/-- Member `ABaseSpider::HitWall`. -/
def HitWall (s : ABaseSpider) : Bool :=
  s.m_ForwardHitResult.IsValidBlockingHit &&
    decide (s.m_ForwardHitResult.Distance ≤ s.WallCheckDistance)

/-- Member `ABaseSpider::IsMoving`: `m_Velocity.Length() > FLT_EPSILON`, compared on the
squares (both sides are non-negative). -/
def IsMoving (s : ABaseSpider) : Bool :=
  decide (s.m_Velocity.SquaredLength > FLT_EPSILON * FLT_EPSILON)

/-- Member `ABaseSpider::IsFalling`. -/
def IsFalling (s : ABaseSpider) : Bool := decide (s.m_State = State.Fall)

/-- Member `ABaseSpider::ChangedGround`. -/
def ChangedGround (E : Engine) (s : ABaseSpider) : Bool :=
  (!(E.GetActorUpVector s.ColliderRotation).Equals s.m_DownHitResult.ImpactNormal
      NORMAL_TOLERANCE) && IsGrounded s

/-- Member `ABaseSpider::FellOffWall`. -/
def FellOffWall (E : Engine) (s : ABaseSpider) : Bool :=
  !(SpiderUp E s).Equals FVector.UnitZ UE_KINDA_SMALL_NUMBER

/-- Member `ABaseSpider::PlaySound`, on the playing flag of the component. -/
def PlaySound (playing : Bool) (Condition : Bool) : Bool :=
  if Condition then (if !playing then true else playing) else false

/-- Member `ABaseSpider::StopAllSounds`. -/
def StopAllSounds (s : ABaseSpider) : ABaseSpider :=
  { s with WebWalkSound := false, WalkSound := false, LandingSound := false }

/-! ## Hit detection (`#pragma region HitDetection`) -/

/-- Member `ABaseSpider::CheckGrounded`: the downward trace, written to `m_DownHitResult`. -/
def CheckGrounded (E : Engine) (s : ABaseSpider) : Bool × ABaseSpider :=
  let Start := s.ColliderLocation
  let End := Start.sub ((SpiderUp E s).smul RAYCAST_LENGTH)
  let s1 := { s with m_DownHitResult := E.LineTrace Start End }
  (IsGrounded s1, s1)

/-- Member `ABaseSpider::CheckWall`: the forward trace, written to `m_ForwardHitResult`, which
is replaced by the empty sample `Temp` when the trace is no wall hit. -/
def CheckWall (E : Engine) (s : ABaseSpider) : Bool × ABaseSpider :=
  let Temp : FHitResult := {}
  let Start := s.ColliderLocation
  let End := Start.add ((SpiderForward E s).smul RAYCAST_LENGTH)
  let s1 := { s with m_ForwardHitResult := E.LineTrace Start End }
  if HitWall s1 then (true, s1) else (false, { s1 with m_ForwardHitResult := Temp })

/-- The sample returned by the forward trace of `CheckWall`. -/
def ForwardTrace (E : Engine) (s : ABaseSpider) : FHitResult :=
  E.LineTrace s.ColliderLocation
    (s.ColliderLocation.add ((SpiderForward E s).smul RAYCAST_LENGTH))

/-- Member `ABaseSpider::CollisionPrediction`: the trace along this frame's displacement. -/
def CollisionPrediction (E : Engine) (DeltaTime : ℚ) (s : ABaseSpider) : Bool × ABaseSpider :=
  let HitResult :=
    E.LineTrace s.ColliderLocation (s.ColliderLocation.add (s.m_Velocity.smul DeltaTime))
  if HitResult.IsValidBlockingHit then (true, { s with m_DownHitResult := HitResult })
  else (false, s)

/-- Member `ABaseSpider::SetClosestWeb`. -/
def SetClosestWeb (Start End : FVector) (s : ABaseSpider) : ABaseSpider :=
  { s with m_StartLinePoint := Start, m_EndLinePoint := End }

/-- The call `MountWebLine(Web)`: the blueprint handler may call `SetClosestWeb`. -/
def MountWebLine (E : Engine) (Web : AActor) (s : ABaseSpider) : ABaseSpider :=
  match E.MountWebLine Web with
  | none => s
  | some (Start, End) => SetClosestWeb Start End s

/-- Member `ABaseSpider::IsOnWeb`. -/
def IsOnWeb (E : Engine) (s : ABaseSpider) : Bool × ABaseSpider :=
  let w := CheckWall E s
  let r : Option AActor × ABaseSpider :=
    if w.1 then (w.2.m_ForwardHitResult.Actor, w.2)
    else
      let g := CheckGrounded E w.2
      if g.1 then (g.2.m_DownHitResult.Actor, g.2) else (none, g.2)
  match r.1 with
  | none => (false, r.2)
  | some Web =>
    if Web.Tags.isEmpty then (false, r.2)
    else if Web.Tags.contains r.2.WebLineTag then (true, MountWebLine E Web r.2)
    else (false, r.2)

/-! ## Surface sticking (`#pragma region SurfaceSticking`) -/

/-- Member `ABaseSpider::CalcSurfaceStickPoint` (`SizeScalar` is `1.05f`; the local
`ImpactForward` is computed and not used). -/
def CalcSurfaceStickPoint (E : Engine) (HitResult : FHitResult) (s : ABaseSpider) :
    ABaseSpider :=
  let Size := E.ScaledCapsuleRadius * (21 / 20)
  { s with
    m_StickRotation := E.FindBetweenVectors (SpiderUp E s) HitResult.ImpactNormal
    m_StickPosition :=
      (HitResult.Location.add (HitResult.ImpactNormal.smul Size)).sub s.ColliderLocation }

/-- The local `Angle` of `ABaseSpider::CalcLerpRatio`. -/
def LerpAngle (E : Engine) (s : ABaseSpider) : ℚ :=
  E.Acos ((SpiderUp E s).Dot s.m_ForwardHitResult.ImpactNormal)

/-- Member `ABaseSpider::CalcLerpRatio` (`CustomRatioThreshold` is `90.f`). -/
def CalcLerpRatio (E : Engine) (s : ABaseSpider) : ABaseSpider :=
  let CustomRatioThreshold : ℚ := 90
  let Angle := LerpAngle E s
  if Angle < CustomRatioThreshold then
    { s with m_LerpRatio := 1 / s.WallInterpolateTime }
  else
    { s with m_LerpRatio :=
        1 / (s.WallInterpolateTime * (CustomRatioThreshold / Angle) * s.LargeLerpCompensation) }

/-- Member `ABaseSpider::SetTransition`. -/
def SetTransition (E : Engine) (HitResult : FHitResult) (s : ABaseSpider) : ABaseSpider :=
  { CalcLerpRatio E (CalcSurfaceStickPoint E HitResult s) with m_LerpTimer := 0 }

/-- Member `ABaseSpider::TransitionSurfaces`. -/
def TransitionSurfaces (E : Engine) (DeltaTime : ℚ) (s : ABaseSpider) : ABaseSpider :=
  let LerpStep := s.m_LerpRatio * DeltaTime / s.WallInterpolateTime
  { s with
    m_LerpTimer := s.m_LerpTimer + LerpStep
    ColliderLocation := s.ColliderLocation.add (s.m_StickPosition.smul LerpStep)
    ColliderRotation := E.AddWorldRotation s.ColliderRotation (s.m_StickRotation.smul LerpStep) }

/-- Member `ABaseSpider::StickToSurface`. -/
def StickToSurface (E : Engine) (s : ABaseSpider) : ABaseSpider :=
  let s1 := CalcSurfaceStickPoint E s.m_DownHitResult s
  { s1 with
    ColliderLocation := s1.ColliderLocation.add s1.m_StickPosition
    ColliderRotation := E.AddWorldRotation s1.ColliderRotation s1.m_StickRotation }

/-- Member `ABaseSpider::RotateToWorld`. -/
def RotateToWorld (E : Engine) (DeltaTime : ℚ) (s : ABaseSpider) : ABaseSpider :=
  let s1 :=
    if FellOffWall E s then
      { s with
        m_StickRotation := E.FindBetweenVectors (SpiderUp E s) FVector.UnitZ
        m_StickPosition := FVector.zero
        m_LerpTimer := 0
        m_LerpRatio := 1 }
    else s
  if IsTransitioning s1 then TransitionSurfaces E DeltaTime s1 else s1

/-! ## Physics (`#pragma region Physics`) -/

/-- Member `ABaseSpider::ApplyGravity`. -/
def ApplyGravity (DeltaTime : ℚ) (s : ABaseSpider) : ABaseSpider :=
  { s with m_Velocity := { s.m_Velocity with Z := s.m_Velocity.Z - s.Gravity * DeltaTime } }

/-- Member `ABaseSpider::ApplyDrag`. -/
def ApplyDrag (DeltaTime : ℚ) (s : ABaseSpider) : ABaseSpider :=
  { s with m_Velocity := s.m_Velocity.sub ((s.m_Velocity.smul s.Drag).smul DeltaTime) }

/-! ## Player controlled action (`#pragma region PlayerControlledAction`) -/

/-- Member `ABaseSpider::RotateCamera`: `GetController()` is dereferenced unchecked. -/
def RotateCamera (E : Engine) (s : ABaseSpider) : Option ABaseSpider :=
  match E.Controller with
  | none => none
  | some BodyRotation => some { s with CameraRelativeRotation := ⟨BodyRotation.Pitch, 0, 0⟩ }

/-- Member `ABaseSpider::RotateBody`: `GetController()` is dereferenced unchecked. -/
def RotateBody (E : Engine) (s : ABaseSpider) : Option ABaseSpider :=
  match E.Controller with
  | none => none
  | some BodyRotation => some { s with SpiderRelativeRotation := ⟨0, BodyRotation.Yaw, 0⟩ }

/-- Member `ABaseSpider::HandleMove`. -/
def HandleMove (Direction : FVector) (s : ABaseSpider) : ABaseSpider :=
  let c := ConsumeMovementInputVector s
  let Movement := c.1
  let Length := Movement.Y * c.2.MovementSpeed
  { c.2 with m_Velocity := c.2.m_Velocity.add (Direction.smul Length) }

/-- Member `ABaseSpider::Jump`. -/
def Jump (E : Engine) (JumpPower : ℚ) (s : ABaseSpider) : ABaseSpider :=
  let g := CheckGrounded E s
  if !g.1 then g.2
  else
    let s1 := g.2
    let v1 := if s1.m_Velocity.SquaredLength ≠ 0 then Normalize E s1.m_Velocity
      else s1.m_Velocity
    let v2 := v1.add (SpiderUp E s1)
    let v3 := Normalize E v2
    let v4 := v3.smul JumpPower
    let s2 := { s1 with m_Velocity := v4, m_JumpImmuneTimer := s1.JumpImmuneTime }
    { StopAllSounds s2 with m_State := State.Jumping }

/-! ## States (`#pragma region States`) -/

/-- Member `ABaseSpider::Transition`. -/
def Transition (E : Engine) (DeltaTime : ℚ) (s : ABaseSpider) : Option ABaseSpider :=
  let s0 := { s with WalkSound := false, m_Velocity := FVector.zero }
  if !IsTransitioning s0 then
    let w := IsOnWeb E s0
    some (StickToSurface E { w.2 with m_State := if w.1 then State.OnWeb else State.Ground })
  else
    (RotateCamera E (TransitionSurfaces E DeltaTime s0)).bind fun s1 =>
    some { s1 with m_OldState := State.Transition }

/-- The end of `ABaseSpider::Grounded` (the walking sound and `m_OldState`);
`m_DownHitResult.GetActor()` is dereferenced unchecked. -/
def GroundedSound (s : ABaseSpider) : Option ABaseSpider :=
  match s.m_DownHitResult.Actor with
  | none => none
  | some Actor =>
    let OnWeb := Actor.Tags.contains s.WebTag
    let Condition := decide (s.m_Velocity.SquaredLength > 0)
    let s1 :=
      if OnWeb then { s with WebWalkSound := PlaySound s.WebWalkSound Condition }
      else { s with WalkSound := PlaySound s.WalkSound Condition }
    some { s1 with m_OldState := State.Ground }

/-- Member `ABaseSpider::Grounded`. -/
def Grounded (E : Engine) (_DeltaTime : ℚ) (s : ABaseSpider) : Option ABaseSpider :=
  let s1 := (CheckGrounded E s).2
  let s2 := (CheckWall E s1).2
  if ChangedGround E s2 then
    some (StopAllSounds
      { SetTransition E s2.m_DownHitResult s2 with
        m_State := State.Transition, m_Velocity := FVector.zero })
  else if HitWall s2 && IsMoving s2 then
    some (StopAllSounds
      { SetTransition E s2.m_ForwardHitResult s2 with
        m_State := State.Transition, m_Velocity := FVector.zero })
  else if !IsGrounded s2 then
    some (StopAllSounds { s2 with m_State := State.Fall, m_Velocity := FVector.zero })
  else
    (RotateCamera E { s2 with m_Velocity := FVector.zero }).bind fun s3 =>
    (RotateBody E s3).bind fun s4 =>
    let s5 := HandleMove (SpiderForward E s4) s4
    if IsMoving s5 then
      let s6 := StickToSurface E s5
      if ChangedGround E s6 then
        let w := IsOnWeb E s6
        if w.1 then some { w.2 with m_State := State.OnWeb, m_Velocity := FVector.zero }
        else GroundedSound w.2
      else GroundedSound s6
    else GroundedSound s5

/-- Member `ABaseSpider::OnWeb`. -/
def OnWeb (E : Engine) (_DeltaTime : ℚ) (s : ABaseSpider) : Option ABaseSpider :=
  let s1 := (CheckGrounded E s).2
  let s2 := (CheckWall E s1).2
  if !IsGrounded s2 then
    some (StopAllSounds { s2 with m_State := State.Fall, m_Velocity := FVector.zero })
  else if HitWall s2 && IsMoving s2 then
    some (StopAllSounds
      { SetTransition E s2.m_ForwardHitResult s2 with
        m_State := State.Transition, m_Velocity := FVector.zero })
  else
    (RotateCamera E { s2 with m_Velocity := FVector.zero }).bind fun s3 =>
    (RotateBody E s3).bind fun s4 =>
    let Direction := Normalize E (s4.m_EndLinePoint.sub s4.m_StartLinePoint)
    let cosAngle := (SpiderForward E s4).Dot Direction
    let s5 := HandleMove (Direction.smul (Sign cosAngle)) s4
    some { s5 with
      WebWalkSound := PlaySound s5.WebWalkSound (decide (s5.m_Velocity.SquaredLength > 0))
      m_OldState := State.OnWeb }

/-- The common end of `ABaseSpider::Falling` and `ABaseSpider::Jumping` ("Standard falling"):
`RotateToWorld`, `RotateCamera`, `RotateBody`, `ApplyGravity`, `ApplyDrag`. -/
def StandardFalling (E : Engine) (DeltaTime : ℚ) (s : ABaseSpider) : Option ABaseSpider :=
  (RotateCamera E (RotateToWorld E DeltaTime s)).bind fun s1 =>
  (RotateBody E s1).bind fun s2 =>
  some (ApplyDrag DeltaTime (ApplyGravity DeltaTime s2))

/-- Member `ABaseSpider::Falling`. -/
def Falling (E : Engine) (DeltaTime : ℚ) (s : ABaseSpider) : Option ABaseSpider :=
  let w := CheckWall E { s with WalkSound := false }
  if w.1 then
    some
      { SetTransition E w.2.m_ForwardHitResult w.2 with
        m_State := State.Transition, m_Velocity := FVector.zero, LandingSound := true }
  else
    let c := CollisionPrediction E DeltaTime w.2
    if c.1 then
      let s1 := { c.2 with m_Velocity := FVector.zero }
      let s2 :=
        if ChangedGround E s1 then
          { SetTransition E s1.m_DownHitResult s1 with m_State := State.Transition }
        else { StickToSurface E s1 with m_State := State.Ground }
      some { s2 with LandingSound := true }
    else
      (StandardFalling E DeltaTime c.2).bind fun s3 =>
      some { (ConsumeMovementInputVector s3).2 with m_OldState := State.Fall }

/-- Member `ABaseSpider::Jumping`. -/
def Jumping (E : Engine) (DeltaTime : ℚ) (s : ABaseSpider) : Option ABaseSpider :=
  let s1 := { s with m_JumpImmuneTimer := s.m_JumpImmuneTimer - DeltaTime }
  if s1.m_JumpImmuneTimer < 0 then some { s1 with m_State := State.Fall }
  else
    (StandardFalling E DeltaTime s1).bind fun s2 =>
    some { s2 with m_OldState := State.Jumping }

/-- Member `ABaseSpider::Tick`. -/
def Tick (E : Engine) (DeltaTime : ℚ) (s : ABaseSpider) : Option ABaseSpider :=
  (match s.m_State with
    | State.Ground => Grounded E DeltaTime s
    | State.Transition => Transition E DeltaTime s
    | State.Fall => Falling E DeltaTime s
    | State.OnWeb => OnWeb E DeltaTime s
    | State.Jumping => Jumping E DeltaTime s).bind fun s1 =>
  let s2 := (ConsumeMovementInputVector s1).2
  some { s2 with ColliderLocation := E.SweepMove s2.ColliderLocation (s2.m_Velocity.smul DeltaTime) }

/-! ## A concrete engine: a level world

The body keeps its axes (up `+Z`, forward `+X`, right `+Y`), a trace that goes downwards
returns the sample `Down`, any other trace that goes towards `+X` returns `Forward`, and every
other trace misses. -/

/-- The level world with the given downward and forward samples and controller. -/
def LevelEngine (Down Forward : FHitResult) (Controller : Option FRotator) : Engine where
  InvSqrt := fun x => (Rat.sqrt x)⁻¹
  Acos := fun x => if x ≤ 0 then 2 else if x < 1 then 1 else 0
  LineTrace := fun Start End =>
    if End.Z < Start.Z then Down else if Start.X < End.X then Forward else {}
  FindBetweenVectors := fun _ _ => {}
  AddWorldRotation := fun r d => ⟨r.Pitch + d.Pitch, r.Yaw + d.Yaw, r.Roll + d.Roll⟩
  GetUpVector := fun _ _ => ⟨0, 0, 1⟩
  GetForwardVector := fun _ _ => ⟨1, 0, 0⟩
  GetRightVector := fun _ _ => ⟨0, 1, 0⟩
  GetActorUpVector := fun _ => ⟨0, 0, 1⟩
  Controller := Controller
  ScaledCapsuleRadius := 20
  MountWebLine := fun _ => none
  SweepMove := fun Location Delta => Location.add Delta

/-- A floor sample: a valid blocking hit at the given distance with normal `+Z`. -/
def FloorHit (Distance : ℚ) : FHitResult :=
  { IsValidBlockingHit := true, Location := ⟨0, 0, 0⟩, ImpactNormal := ⟨0, 0, 1⟩,
    Distance := Distance, Actor := some { Tags := ["Floor"] } }

/-- The level world with a floor 10 below, nothing ahead and a controller attached. -/
def FloorEngine : Engine := LevelEngine (FloorHit 10) {} (some {})

/-- A wall sample: a valid blocking hit at the given distance with normal `-X`. -/
def WallHit (Distance : ℚ) : FHitResult :=
  { IsValidBlockingHit := true, Location := ⟨Distance, 0, 0⟩, ImpactNormal := ⟨-1, 0, 0⟩,
    Distance := Distance, Actor := some { Tags := ["Wall"] } }

/-! ## Concrete inputs -/

/-- The level world with the floor 400 below, farther than `GroundCheckDistance`. -/
def C2_Engine : Engine := LevelEngine (FloorHit 400) {} (some {})

/-- A spider falling at 300 units per second in state `Fall`. -/
def C2_Spider : ABaseSpider := { m_Velocity := ⟨0, 0, -300⟩, ColliderLocation := ⟨0, 0, 400⟩ }

/-- A spider 10 above the floor falling at 5000 units per second. -/
def C3_Spider : ABaseSpider := { m_Velocity := ⟨0, 0, -5000⟩, ColliderLocation := ⟨0, 0, 10⟩ }

/-- The level world with a wall 50 ahead, within `WallCheckDistance`, and no floor. -/
def C4_Engine : Engine := LevelEngine {} (WallHit 50) (some {})

/-- A spider in state `Fall` moving forwards and downwards. -/
def C4_Spider : ABaseSpider := { m_Velocity := ⟨300, 0, -300⟩, m_LerpTimer := 2 }

/-- A web-line sample below the creature: a valid blocking hit on an actor tagged
`WebLine`. -/
def WebLineHit (Distance : ℚ) : FHitResult :=
  { IsValidBlockingHit := true, Location := ⟨0, 0, 0⟩, ImpactNormal := ⟨0, 0, 1⟩,
    Distance := Distance, Actor := some { Tags := ["WebLine"] } }

/-- The level world with a web line 10 below, nothing ahead and no controller. -/
def C5_Engine : Engine := LevelEngine (WebLineHit 10) {} none

/-- A spider in `Transition` whose lerp timer has passed 1. -/
def C5_Spider : ABaseSpider :=
  { m_State := State.Transition, m_LerpTimer := 21 / 20, ColliderLocation := ⟨0, 0, 10⟩ }

/-- A spider in `Transition` half way through the lerp. -/
def C5_SpiderInProgress : ABaseSpider :=
  { m_State := State.Transition, m_LerpTimer := 1 / 2, ColliderLocation := ⟨0, 0, 10⟩ }

/-- A spider that has just begun a transition onto the floor sample: `SetTransition` on the
default spider, then `m_State = Transition` and zero velocity as the handlers do. -/
def C6_Spider : ABaseSpider :=
  { SetTransition FloorEngine (FloorHit 10) {} with
    m_State := State.Transition, m_Velocity := FVector.zero }

/-- A spider on the ground with full forward input and a stale velocity. -/
def C8_Spider : ABaseSpider :=
  { m_State := State.Ground, m_Velocity := ⟨7, 0, 0⟩, ControlInputVector := ⟨0, 1, 0⟩,
    ColliderLocation := ⟨0, 0, 10⟩ }

/-- A sample below the creature whose normal is `+X`: a valid blocking hit at the given
distance. -/
def SideHit (Distance : ℚ) : FHitResult :=
  { IsValidBlockingHit := true, Location := ⟨0, 0, 0⟩, ImpactNormal := ⟨1, 0, 0⟩,
    Distance := Distance, Actor := some { Tags := ["Rock"] } }

/-- The level world in which the downward trace returns the `+X` sample at distance 10; no
controller is attached. -/
def C9_Engine : Engine := LevelEngine (SideHit 10) {} none

/-- A spider in state `Ground` whose last ground sample was the level floor. -/
def C9_Spider : ABaseSpider :=
  { m_State := State.Ground, m_DownHitResult := FloorHit 10, ColliderLocation := ⟨0, 0, 10⟩ }

/-- The level world with a floor 10 below, nothing ahead, and no controller attached
(`GetController()` is null, as for a pawn that is not possessed). -/
def C10_Engine : Engine := LevelEngine (FloorHit 10) {} none

/-- A spider standing on the floor in the given state, with no movement input. -/
def C10_Spider (st : State) : ABaseSpider :=
  { m_State := st, m_DownHitResult := FloorHit 10, ColliderLocation := ⟨0, 0, 10⟩,
    m_LerpTimer := 1 / 2, m_JumpImmuneTimer := 1 / 10 }

/-- A spider on a web line whose end points are a hundred-thousandth apart along `+X`, with
full forward input. -/
def C11_Spider : ABaseSpider :=
  { m_State := State.OnWeb, ControlInputVector := ⟨0, 1, 0⟩, ColliderLocation := ⟨0, 0, 10⟩,
    m_StartLinePoint := ⟨0, 0, 0⟩, m_EndLinePoint := ⟨1 / 100000, 0, 0⟩ }

/-- A spider on a web line whose two end points coincide, with full forward input. -/
def C11_SpiderCoincident : ABaseSpider :=
  { m_State := State.OnWeb, ControlInputVector := ⟨0, 1, 0⟩, ColliderLocation := ⟨0, 0, 10⟩,
    m_StartLinePoint := ⟨3, 4, 5⟩, m_EndLinePoint := ⟨3, 4, 5⟩ }

/-- A spider in state `Fall` moving forwards and downwards while the walk and web-walk cues
are playing. -/
def C13_Spider : ABaseSpider :=
  { m_Velocity := ⟨300, 0, -300⟩, WalkSound := true, WebWalkSound := true }

/-- A spider standing on the floor in state `Ground` with all three cues playing. -/
def C13_SpiderGround : ABaseSpider :=
  { m_State := State.Ground, ColliderLocation := ⟨0, 0, 10⟩, WalkSound := true,
    WebWalkSound := true, LandingSound := true }

/-- The level world with a wall 50 ahead, no floor and a controller attached. -/
def WallAheadEngine : Engine := LevelEngine {} (WallHit 50) (some {})

/-- The level world without any surface and without a controller. -/
def EmptyEngine : Engine := LevelEngine {} {} none

/-- The level world with a floor 10 below, a wall 50 ahead and a controller attached. -/
def FloorWallEngine : Engine := LevelEngine (FloorHit 10) (WallHit 50) (some {})

/-- A spider walking on the floor at full speed. -/
def C15_Spider : ABaseSpider :=
  { m_State := State.Ground, m_Velocity := ⟨1000, 0, 0⟩, ColliderLocation := ⟨0, 0, 10⟩,
    m_DownHitResult := FloorHit 10 }

/-- The airborne integration in the words of the specification: gravity is taken from the
`Z` component first, then drag scales the whole vector:
`(v - (0, 0, Gravity * DeltaTime)) * (1 - Drag * DeltaTime)`. -/
def SpecAirborneVelocity (v : FVector) (Gravity Drag DeltaTime : ℚ) : FVector :=
  (v.sub ⟨0, 0, Gravity * DeltaTime⟩).smul (1 - Drag * DeltaTime)

/-- A spider in state `Jumping` just after take-off with velocity `(0, 0, 500)`. -/
def JumpingSpider : ABaseSpider :=
  { m_State := State.Jumping, m_Velocity := ⟨0, 0, 500⟩, m_JumpImmuneTimer := 1 / 10,
    ColliderLocation := ⟨0, 0, 10⟩, m_DownHitResult := FloorHit 10 }

/-- A spider in state `Fall` high above the floor, falling at 300 units per second. -/
def C17_Spider : ABaseSpider :=
  { m_Velocity := ⟨100, 0, -300⟩, ColliderLocation := ⟨0, 0, 400⟩ }

/-- The level world without any surface, with a controller attached. -/
def AirEngine : Engine := LevelEngine {} {} (some {})

/-- A spider on a web line that runs from `(5, 0, 0)` back to `(4, 0, 0)`, against the
forward vector `+X`, with full forward input. -/
def C18_Spider : ABaseSpider :=
  { m_State := State.OnWeb, ControlInputVector := ⟨0, 1, 0⟩, ColliderLocation := ⟨0, 0, 10⟩,
    m_StartLinePoint := ⟨5, 0, 0⟩, m_EndLinePoint := ⟨4, 0, 0⟩ }

/-- A spider in state `Fall` whose last forward sample is a wall of unit normal. -/
def C20_Spider : ABaseSpider := { m_ForwardHitResult := WallHit 50 }

/-- A call of one of the two entry points of the controller, with the engine (world, ray
casts, controller) it runs against. -/
inductive Call where
  | TickCall (E : Engine) (DeltaTime : ℚ)
  | JumpCall (E : Engine) (JumpPower : ℚ)

/-- One call: `Tick(DeltaTime)` or `Jump(JumpPower)`. -/
def RunCall : Call → ABaseSpider → Option ABaseSpider
  | Call.TickCall E DeltaTime, s => Tick E DeltaTime s
  | Call.JumpCall E JumpPower, s => some (Jump E JumpPower s)

/-- A sequence of calls, one after the other; it stops at the first call that fails. -/
def RunCalls : List Call → ABaseSpider → Option ABaseSpider
  | [], s => some s
  | c :: cs, s => (RunCall c s).bind (RunCalls cs)

/-- The calls of the C21 example: a jump of power 500 from the floor, a frame of 1/60, and a
frame of 1/5 that outlasts the immunity time. -/
def C21_Calls : List Call :=
  [Call.JumpCall FloorEngine 500, Call.TickCall FloorEngine (1 / 60),
    Call.TickCall FloorEngine (1 / 5)]

/-- Consecutive frames in state `Transition` with the lerp in progress: each frame is a
`Tick` against its own engine, entered in state `Transition` with `m_LerpTimer` in `[0, 1]`;
the run stops (`none`) at a frame that is entered otherwise or that fails. -/
def TransitionFrames : List (Engine × ℚ) → ABaseSpider → Option ABaseSpider
  | [], s => some s
  | f :: fs, s =>
    if s.m_State = State.Transition ∧ IsTransitioning s = true then
      (Tick f.1 f.2 s).bind (TransitionFrames fs)
    else none

/-- A spider that has just begun a transition onto the floor sample (`SetTransition` on the
controller as constructed, then `m_State = Transition` and zero velocity); its target offset
`m_StickPosition` is `(0, 0, 21)`. -/
def C22_Spider : ABaseSpider :=
  { SetTransition FloorEngine (FloorHit 10) {} with
    m_State := State.Transition, m_Velocity := FVector.zero }

/-- A step table of the arc cosine in radians, with `π` taken as `22/7`: `22/7` up to `-1`,
`5/2` below `0`, `11/7` at `0`, `9/14` below `1` and `0` from `1` on.  It agrees with the arc
cosine to two decimals at `-1`, `-4/5`, `0`, `4/5` and `1`. -/
def RadianAcos (x : ℚ) : ℚ :=
  if x ≤ -1 then 22 / 7 else if x < 0 then 5 / 2 else if x ≤ 0 then 11 / 7
  else if x < 1 then 9 / 14 else 0

/-- The level world with the given samples and controller, whose `FMath::Acos` is the radian
table `RadianAcos`. -/
def RadianEngine (Down Forward : FHitResult) (Controller : Option FRotator) : Engine :=
  { LevelEngine Down Forward Controller with Acos := RadianAcos }

/-- Any engine, with its arc cosine brought into the range of `FMath::Acos`: radians between
`0` and `π`, here between `0` and `22/7`. -/
def WithAcosInRange (E : Engine) : Engine :=
  { E with Acos := fun x => min (max (E.Acos x) 0) (22 / 7) }

/-- An overhang sample: a valid blocking hit 50 ahead whose unit normal `(-3/5, 0, -4/5)`
leans back over the creature, about 143 degrees away from the up-vector `+Z`. -/
def OverhangHit : FHitResult :=
  { IsValidBlockingHit := true, Location := ⟨50, 0, 10⟩, ImpactNormal := ⟨-3 / 5, 0, -4 / 5⟩,
    Distance := 50, Actor := some { Tags := ["Overhang"] } }

/-- The level world with a floor 10 below, the given sample ahead and a controller attached,
with the arc cosine in radians. -/
def C7_Engine (Forward : FHitResult) : Engine := RadianEngine (FloorHit 10) Forward (some {})

/-- A spider walking on the floor at full speed. -/
def C7_Spider : ABaseSpider :=
  { m_State := State.Ground, m_Velocity := ⟨1000, 0, 0⟩, ColliderLocation := ⟨0, 0, 10⟩,
    m_DownHitResult := FloorHit 10 }

/-- A spider on a web line whose end points are distinct, a twenty-thousandth apart along
`+X`, with full forward input. -/
def C18_SpiderShort : ABaseSpider :=
  { m_State := State.OnWeb, ControlInputVector := ⟨0, 1, 0⟩, ColliderLocation := ⟨0, 0, 10⟩,
    m_StartLinePoint := ⟨2, 0, 0⟩, m_EndLinePoint := ⟨2 + 1 / 20000, 0, 0⟩ }

theorem CheckGrounded_fst (E : Engine) (s : ABaseSpider) :
    (CheckGrounded E s).1 =
      ((E.LineTrace s.ColliderLocation
          (s.ColliderLocation.sub ((SpiderUp E s).smul RAYCAST_LENGTH))).IsValidBlockingHit &&
        decide ((E.LineTrace s.ColliderLocation
          (s.ColliderLocation.sub ((SpiderUp E s).smul RAYCAST_LENGTH))).Distance
            ≤ s.GroundCheckDistance)) := rfl

theorem FVector.zero_add (v : FVector) : FVector.zero.add v = v := by
  ext <;> simp [FVector.add, FVector.zero]

theorem FVector.smul_one (v : FVector) : v.smul 1 = v := by
  ext <;> simp [FVector.smul]

theorem FVector.smul_zero (v : FVector) : v.smul 0 = FVector.zero := by
  ext <;> simp [FVector.smul, FVector.zero]

theorem FVector.SquaredLength_zero : FVector.zero.SquaredLength = 0 := by
  simp [FVector.SquaredLength, FVector.zero]

/-- Normalising a vector of squared length one returns it, when `InvSqrt 1` is `1`. -/
theorem Normalize_unit (E : Engine) (v : FVector) (hInv : E.InvSqrt 1 = 1)
    (hv : v.SquaredLength = 1) : Normalize E v = v := by
  unfold Normalize
  rw [hv, hInv, FVector.smul_one]
  simp

/-- C1. `Jump(JumpPower)`, in any movement state, when the fresh downward probe is grounded
and the velocity is the zero vector, leaves the velocity equal to the unit surface-up vector
scaled by `JumpPower`, the state `Jumping` and the immunity timer `JumpImmuneTime`
(`FMath::InvSqrt(1)` being `1`). -/
theorem C1_Jump_grounded_zero_velocity (E : Engine) (JumpPower : ℚ) (s : ABaseSpider)
    (hInv : E.InvSqrt 1 = 1)
    (hGround : (CheckGrounded E s).1 = true)
    (hVel : s.m_Velocity = FVector.zero)
    (hUp : (SpiderUp E s).SquaredLength = 1) :
    (Jump E JumpPower s).m_Velocity = (SpiderUp E s).smul JumpPower ∧
      (Jump E JumpPower s).m_State = State.Jumping ∧
      (Jump E JumpPower s).m_JumpImmuneTimer = s.JumpImmuneTime := by
  have hUp1 : (SpiderUp E (CheckGrounded E s).2).SquaredLength = 1 := hUp
  have hv : (CheckGrounded E s).2.m_Velocity = FVector.zero := hVel
  refine ⟨?_, ?_, ?_⟩
  · simp only [Jump, hGround, hv, StopAllSounds, FVector.SquaredLength_zero]
    simp
    rw [FVector.zero_add, Normalize_unit E _ hInv hUp1]
    rfl
  · simp [Jump, hGround, StopAllSounds]
  · simp only [Jump, hGround, StopAllSounds]
    simp [CheckGrounded]

/-- C1 at a concrete input: the default spider over a floor, `Jump(500)` gives velocity
`(0, 0, 500)`. -/
theorem C1_Jump_grounded_zero_velocity_witness :
    (Jump FloorEngine 500 {}).m_Velocity = ⟨0, 0, 500⟩ ∧
      (Jump FloorEngine 500 {}).m_State = State.Jumping ∧
      (Jump FloorEngine 500 {}).m_JumpImmuneTimer = 1 / 10 := by
  have h := C1_Jump_grounded_zero_velocity FloorEngine 500 {}
    (by simp [FloorEngine, LevelEngine, Rat.sqrt])
    (by simp [CheckGrounded, IsGrounded, FloorEngine, LevelEngine, FloorHit, SpiderUp,
          FVector.sub, FVector.smul, FVector.zero, RAYCAST_LENGTH]; norm_num)
    rfl
    (by simp [SpiderUp, FloorEngine, LevelEngine, FVector.SquaredLength])
  simpa [SpiderUp, FloorEngine, LevelEngine, FVector.smul] using h

/-- C2. `Jump(JumpPower)` is a no-op when the creature is not grounded: if the fresh downward
probe is not a valid blocking hit or is farther than `GroundCheckDistance`, the movement state,
the velocity and the jump-immunity timer are what they were. -/
theorem C2_Jump_airborne_noop (E : Engine) (JumpPower : ℚ) (s : ABaseSpider)
    (hAir :
      (E.LineTrace s.ColliderLocation
          (s.ColliderLocation.sub ((SpiderUp E s).smul RAYCAST_LENGTH))).IsValidBlockingHit
        = false ∨
      s.GroundCheckDistance <
        (E.LineTrace s.ColliderLocation
          (s.ColliderLocation.sub ((SpiderUp E s).smul RAYCAST_LENGTH))).Distance) :
    (Jump E JumpPower s).m_State = s.m_State ∧
      (Jump E JumpPower s).m_Velocity = s.m_Velocity ∧
      (Jump E JumpPower s).m_JumpImmuneTimer = s.m_JumpImmuneTimer := by
  have hg : (CheckGrounded E s).1 = false := by
    rw [CheckGrounded_fst]
    rcases hAir with h | h
    · simp [h]
    · simp [not_le.mpr h]
  simp only [Jump, hg]
  simp [CheckGrounded]

/-- C2 at a concrete input: `Jump(500)` 400 above the floor changes nothing. -/
theorem C2_Jump_airborne_noop_witness :
    (Jump C2_Engine 500 C2_Spider).m_State = State.Fall ∧
      (Jump C2_Engine 500 C2_Spider).m_Velocity = ⟨0, 0, -300⟩ ∧
      (Jump C2_Engine 500 C2_Spider).m_JumpImmuneTimer = 0 :=
  C2_Jump_airborne_noop C2_Engine 500 C2_Spider
    (Or.inr (by
      simp [C2_Engine, C2_Spider, LevelEngine, FloorHit, SpiderUp, FVector.sub, FVector.smul,
        RAYCAST_LENGTH]
      norm_num))

theorem CheckWall_fst (E : Engine) (s : ABaseSpider) :
    (CheckWall E s).1 =
      ((ForwardTrace E s).IsValidBlockingHit &&
        decide ((ForwardTrace E s).Distance ≤ s.WallCheckDistance)) := by
  unfold CheckWall
  dsimp only
  split
  · next h => exact h.symm
  · next h => exact (Bool.eq_false_iff.mpr h).symm

theorem CheckWall_snd (E : Engine) (s : ABaseSpider) :
    (CheckWall E s).2 =
      { s with m_ForwardHitResult := if (CheckWall E s).1 then ForwardTrace E s else {} } := by
  unfold CheckWall
  dsimp only
  split <;> rfl

theorem CheckWall_snd_ColliderLocation (E : Engine) (s : ABaseSpider) :
    (CheckWall E s).2.ColliderLocation = s.ColliderLocation := by
  rw [CheckWall_snd]

theorem CheckWall_snd_m_Velocity (E : Engine) (s : ABaseSpider) :
    (CheckWall E s).2.m_Velocity = s.m_Velocity := by
  rw [CheckWall_snd]

theorem CheckWall_fst_WalkSound (E : Engine) (s : ABaseSpider) (b : Bool) :
    (CheckWall E { s with WalkSound := b }).1 = (CheckWall E s).1 := by
  rw [CheckWall_fst, CheckWall_fst]; rfl

theorem CalcLerpRatio_eq (E : Engine) (s : ABaseSpider) :
    CalcLerpRatio E s = { s with m_LerpRatio := (CalcLerpRatio E s).m_LerpRatio } := by
  unfold CalcLerpRatio
  dsimp only
  split <;> rfl

theorem SetTransition_eq (E : Engine) (HitResult : FHitResult) (s : ABaseSpider) :
    SetTransition E HitResult s =
      { s with
        m_StickRotation := E.FindBetweenVectors (SpiderUp E s) HitResult.ImpactNormal
        m_StickPosition :=
          (HitResult.Location.add
            (HitResult.ImpactNormal.smul (E.ScaledCapsuleRadius * (21 / 20)))).sub
              s.ColliderLocation
        m_LerpRatio := (SetTransition E HitResult s).m_LerpRatio
        m_LerpTimer := 0 } := by
  unfold SetTransition
  rw [CalcLerpRatio_eq]
  rfl

/-- C3. No tunnelling: in a `Fall` frame whose predictive sweep ray, from the current position
to position plus velocity times `DeltaTime`, returns a valid blocking hit, the handler ends in
`Ground` or `Transition` with zero velocity; the sweep is cast when the forward probe found no
wall, and then `m_DownHitResult` is the sweep hit. -/
theorem C3_Falling_sweep_no_tunneling (E : Engine) (DeltaTime : ℚ) (s : ABaseSpider)
    (hSweep :
      (E.LineTrace s.ColliderLocation
        (s.ColliderLocation.add (s.m_Velocity.smul DeltaTime))).IsValidBlockingHit = true) :
    ∃ s', Falling E DeltaTime s = some s' ∧
      (s'.m_State = State.Ground ∨ s'.m_State = State.Transition) ∧
      s'.m_Velocity = FVector.zero ∧
      ((CheckWall E s).1 = false →
        s'.m_DownHitResult =
          E.LineTrace s.ColliderLocation
            (s.ColliderLocation.add (s.m_Velocity.smul DeltaTime))) := by
  cases hw : (CheckWall E s).1 with
  | true =>
    have hw1 : (CheckWall E { s with WalkSound := false }).1 = true := by
      rw [CheckWall_fst_WalkSound]; exact hw
    refine ⟨_, by simp only [Falling, hw1]; rfl, Or.inr rfl, rfl, by simp⟩
  | false =>
    have hw1 : (CheckWall E { s with WalkSound := false }).1 = false := by
      rw [CheckWall_fst_WalkSound]; exact hw
    have hl := CheckWall_snd_ColliderLocation E { s with WalkSound := false }
    have hv := CheckWall_snd_m_Velocity E { s with WalkSound := false }
    dsimp only at hl hv
    simp only [Falling, hw1, CollisionPrediction, hl, hv, hSweep]
    simp only [Bool.false_eq_true, if_false, if_true, Option.some.injEq, exists_eq_left']
    split
    · exact ⟨Or.inr rfl, by rw [SetTransition_eq], fun _ => by rw [SetTransition_eq]⟩
    · exact ⟨Or.inl rfl, rfl, fun _ => rfl⟩

/-- C3 at a concrete input: a floor at distance 10 and a displacement of length 50 in the
frame (`DeltaTime` one hundredth of a second). -/
theorem C3_Falling_sweep_no_tunneling_witness :
    ∃ s', Falling FloorEngine (1 / 100) C3_Spider = some s' ∧
      (s'.m_State = State.Ground ∨ s'.m_State = State.Transition) ∧
      s'.m_Velocity = FVector.zero ∧ s'.m_DownHitResult = FloorHit 10 := by
  obtain ⟨s', h1, h2, h3, h4⟩ := C3_Falling_sweep_no_tunneling FloorEngine (1 / 100) C3_Spider
    (by
      simp [FloorEngine, C3_Spider, LevelEngine, FloorHit, FVector.add, FVector.smul])
  refine ⟨s', h1, h2, h3, ?_⟩
  rw [h4 (by
    rw [CheckWall_fst]
    simp [ForwardTrace, FloorEngine, C3_Spider, LevelEngine, SpiderForward, FVector.add,
      FVector.smul, RAYCAST_LENGTH])]
  simp [FloorEngine, C3_Spider, LevelEngine, FVector.add, FVector.smul]

theorem RotateCamera_eq_some {E : Engine} {s s' : ABaseSpider} (h : RotateCamera E s = some s') :
    ∃ r, E.Controller = some r ∧ s' = { s with CameraRelativeRotation := ⟨r.Pitch, 0, 0⟩ } := by
  unfold RotateCamera at h
  cases hc : E.Controller with
  | none => rw [hc] at h; cases h
  | some r => rw [hc] at h; exact ⟨r, rfl, (Option.some.inj h).symm⟩

theorem RotateBody_eq_some {E : Engine} {s s' : ABaseSpider} (h : RotateBody E s = some s') :
    ∃ r, E.Controller = some r ∧ s' = { s with SpiderRelativeRotation := ⟨0, r.Yaw, 0⟩ } := by
  unfold RotateBody at h
  cases hc : E.Controller with
  | none => rw [hc] at h; cases h
  | some r => rw [hc] at h; exact ⟨r, rfl, (Option.some.inj h).symm⟩

theorem IsOnWeb_snd (E : Engine) (s : ABaseSpider) :
    (IsOnWeb E s).2 =
      { s with
        m_ForwardHitResult := (IsOnWeb E s).2.m_ForwardHitResult
        m_DownHitResult := (IsOnWeb E s).2.m_DownHitResult
        m_StartLinePoint := (IsOnWeb E s).2.m_StartLinePoint
        m_EndLinePoint := (IsOnWeb E s).2.m_EndLinePoint } := by
  unfold IsOnWeb MountWebLine SetClosestWeb CheckGrounded
  dsimp only
  rw [CheckWall_snd]
  repeat' split
  all_goals rfl

theorem GroundedSound_eq_some {s s' : ABaseSpider} (h : GroundedSound s = some s') :
    s' = { s with
      WebWalkSound := s'.WebWalkSound, WalkSound := s'.WalkSound, m_OldState := State.Ground } := by
  unfold GroundedSound at h
  cases ha : s.m_DownHitResult.Actor with
  | none => rw [ha] at h; cases h
  | some a =>
    rw [ha] at h
    dsimp only at h
    split at h <;> (cases h; rfl)

/-- A `Ground` frame ends in `Transition` with zero velocity and `m_LerpTimer = 0`, or in
`Fall`, or in `OnWeb`, or in the state it started in. -/
theorem Grounded_state (E : Engine) (DeltaTime : ℚ) (s s' : ABaseSpider)
    (h : Grounded E DeltaTime s = some s') :
    (s'.m_State = State.Transition ∧ s'.m_Velocity = FVector.zero ∧ s'.m_LerpTimer = 0) ∨
      s'.m_State = State.Fall ∨ s'.m_State = State.OnWeb ∨ s'.m_State = s.m_State := by
  unfold Grounded at h
  dsimp only at h
  split at h
  · cases h
    exact Or.inl ⟨rfl, rfl, by rw [StopAllSounds, SetTransition_eq]⟩
  · split at h
    · cases h
      exact Or.inl ⟨rfl, rfl, by rw [StopAllSounds, SetTransition_eq]⟩
    · split at h
      · cases h
        exact Or.inr (Or.inl rfl)
      · obtain ⟨s3, h3, h⟩ := Option.bind_eq_some.mp h
        obtain ⟨s4, h4, h⟩ := Option.bind_eq_some.mp h
        obtain ⟨r3, -, e3⟩ := RotateCamera_eq_some h3
        obtain ⟨r4, -, e4⟩ := RotateBody_eq_some h4
        have hs4 : s4.m_State = s.m_State := by
          rw [e4, e3, CheckWall_snd]; rfl
        refine Or.inr (Or.inr ?_)
        split at h
        · split at h
          · split at h
            · cases h
              exact Or.inl rfl
            · rw [GroundedSound_eq_some h, IsOnWeb_snd]
              exact Or.inr hs4
          · rw [GroundedSound_eq_some h]
            exact Or.inr hs4
        · rw [GroundedSound_eq_some h]
          exact Or.inr hs4

theorem RotateToWorld_eq (E : Engine) (DeltaTime : ℚ) (s : ABaseSpider) :
    RotateToWorld E DeltaTime s =
      { s with
        m_StickRotation := (RotateToWorld E DeltaTime s).m_StickRotation
        m_StickPosition := (RotateToWorld E DeltaTime s).m_StickPosition
        m_LerpTimer := (RotateToWorld E DeltaTime s).m_LerpTimer
        m_LerpRatio := (RotateToWorld E DeltaTime s).m_LerpRatio
        ColliderLocation := (RotateToWorld E DeltaTime s).ColliderLocation
        ColliderRotation := (RotateToWorld E DeltaTime s).ColliderRotation } := by
  unfold RotateToWorld TransitionSurfaces
  dsimp only
  repeat' split
  all_goals rfl

theorem StandardFalling_eq_some {E : Engine} {DeltaTime : ℚ} {s s' : ABaseSpider}
    (h : StandardFalling E DeltaTime s = some s') :
    s'.m_State = s.m_State ∧ s'.m_JumpImmuneTimer = s.m_JumpImmuneTimer ∧
      s'.m_DownHitResult = s.m_DownHitResult ∧ s'.m_ForwardHitResult = s.m_ForwardHitResult ∧
      s'.m_Velocity =
        (ApplyDrag DeltaTime (ApplyGravity DeltaTime s)).m_Velocity := by
  unfold StandardFalling at h
  obtain ⟨s1, h1, h⟩ := Option.bind_eq_some.mp h
  obtain ⟨s2, h2, h⟩ := Option.bind_eq_some.mp h
  obtain ⟨r1, -, e1⟩ := RotateCamera_eq_some h1
  obtain ⟨r2, -, e2⟩ := RotateBody_eq_some h2
  cases h
  rw [e2, e1, RotateToWorld_eq]
  exact ⟨rfl, rfl, rfl, rfl, rfl⟩

/-- An `OnWeb` frame ends in `Transition` with zero velocity and `m_LerpTimer = 0`, or in
`Fall`, or in the state it started in. -/
theorem OnWeb_state (E : Engine) (DeltaTime : ℚ) (s s' : ABaseSpider)
    (h : OnWeb E DeltaTime s = some s') :
    (s'.m_State = State.Transition ∧ s'.m_Velocity = FVector.zero ∧ s'.m_LerpTimer = 0) ∨
      s'.m_State = State.Fall ∨ s'.m_State = s.m_State := by
  unfold OnWeb at h
  dsimp only at h
  split at h
  · cases h
    exact Or.inr (Or.inl rfl)
  · split at h
    · cases h
      exact Or.inl ⟨rfl, rfl, by rw [StopAllSounds, SetTransition_eq]⟩
    · obtain ⟨s3, h3, h⟩ := Option.bind_eq_some.mp h
      obtain ⟨s4, h4, h⟩ := Option.bind_eq_some.mp h
      obtain ⟨r3, -, e3⟩ := RotateCamera_eq_some h3
      obtain ⟨r4, -, e4⟩ := RotateBody_eq_some h4
      have hs4 : s4.m_State = s.m_State := by
        rw [e4, e3, CheckWall_snd]; rfl
      cases h
      exact Or.inr (Or.inr hs4)

/-- A `Fall` frame ends in `Transition` with zero velocity and `m_LerpTimer = 0`, or in
`Ground`, or in the state it started in. -/
theorem Falling_state (E : Engine) (DeltaTime : ℚ) (s s' : ABaseSpider)
    (h : Falling E DeltaTime s = some s') :
    (s'.m_State = State.Transition ∧ s'.m_Velocity = FVector.zero ∧ s'.m_LerpTimer = 0) ∨
      s'.m_State = State.Ground ∨ s'.m_State = s.m_State := by
  unfold Falling at h
  dsimp only at h
  split at h
  · cases h
    exact Or.inl ⟨rfl, rfl, by rw [SetTransition_eq]⟩
  · split at h
    · cases h
      split
      · exact Or.inl ⟨rfl, by rw [SetTransition_eq], by rw [SetTransition_eq]⟩
      · exact Or.inr (Or.inl rfl)
    · obtain ⟨s3, h3, h⟩ := Option.bind_eq_some.mp h
      cases h
      refine Or.inr (Or.inr ?_)
      have hc : (CollisionPrediction E DeltaTime (CheckWall E { s with WalkSound := false }).2).2
          = (CheckWall E { s with WalkSound := false }).2 := by
        unfold CollisionPrediction
        dsimp only
        split
        · next hh => simp_all [CollisionPrediction]
        · rfl
      rw [ConsumeMovementInputVector]
      dsimp only
      rw [(StandardFalling_eq_some h3).1, hc, CheckWall_snd]

/-- C4. Entering `Transition` resets velocity and lerp progress: a call of the `Ground`,
`OnWeb` or `Fall` handler that starts in a state other than `Transition` and ends in
`Transition` leaves the velocity zero and `m_LerpTimer` equal to 0. -/
theorem C4_enter_Transition_resets (E : Engine) (DeltaTime : ℚ) (s s' : ABaseSpider)
    (hStart : s.m_State ≠ State.Transition)
    (hCall : Grounded E DeltaTime s = some s' ∨ OnWeb E DeltaTime s = some s' ∨
      Falling E DeltaTime s = some s')
    (hEnd : s'.m_State = State.Transition) :
    s'.m_Velocity = FVector.zero ∧ s'.m_LerpTimer = 0 := by
  rcases hCall with h | h | h
  · rcases Grounded_state E DeltaTime s s' h with h1 | h1 | h1 | h1
    · exact h1.2
    · rw [hEnd] at h1; cases h1
    · rw [hEnd] at h1; cases h1
    · rw [hEnd] at h1; exact absurd h1.symm hStart
  · rcases OnWeb_state E DeltaTime s s' h with h1 | h1 | h1
    · exact h1.2
    · rw [hEnd] at h1; cases h1
    · rw [hEnd] at h1; exact absurd h1.symm hStart
  · rcases Falling_state E DeltaTime s s' h with h1 | h1 | h1
    · exact h1.2
    · rw [hEnd] at h1; cases h1
    · rw [hEnd] at h1; exact absurd h1.symm hStart

/-- C4 at a concrete input: a `Fall` frame with a wall 50 ahead ends in `Transition` with the
velocity and the lerp timer reset. -/
theorem C4_enter_Transition_resets_witness :
    ∃ s', Falling C4_Engine (1 / 60) C4_Spider = some s' ∧ s'.m_State = State.Transition ∧
      s'.m_Velocity = FVector.zero ∧ s'.m_LerpTimer = 0 := by
  have hw : (CheckWall C4_Engine { C4_Spider with WalkSound := false }).1 = true := by
    rw [CheckWall_fst]
    simp [ForwardTrace, C4_Engine, C4_Spider, LevelEngine, WallHit, SpiderForward, FVector.add,
      FVector.smul, FVector.zero, RAYCAST_LENGTH]
    norm_num
  have hF : Falling C4_Engine (1 / 60) C4_Spider =
      some { SetTransition C4_Engine
          (CheckWall C4_Engine { C4_Spider with WalkSound := false }).2.m_ForwardHitResult
          (CheckWall C4_Engine { C4_Spider with WalkSound := false }).2 with
        m_State := State.Transition, m_Velocity := FVector.zero, LandingSound := true } := by
    simp only [Falling, hw]
    rfl
  exact ⟨_, hF, rfl,
    C4_enter_Transition_resets C4_Engine (1 / 60) C4_Spider _ (by simp [C4_Spider])
      (Or.inr (Or.inr hF)) rfl⟩

theorem IsTransitioning_iff (s : ABaseSpider) :
    IsTransitioning s = true ↔ 0 ≤ s.m_LerpTimer ∧ s.m_LerpTimer ≤ 1 := by
  simp [IsTransitioning]

/-- The `Transition` handler while the lerp is in progress and a controller is attached. -/
theorem Transition_in_progress (E : Engine) (DeltaTime : ℚ) (s : ABaseSpider) (r : FRotator)
    (hT : 0 ≤ s.m_LerpTimer ∧ s.m_LerpTimer ≤ 1) (hr : E.Controller = some r) :
    Transition E DeltaTime s =
      some { TransitionSurfaces E DeltaTime
          { s with WalkSound := false, m_Velocity := FVector.zero } with
        CameraRelativeRotation := ⟨r.Pitch, 0, 0⟩, m_OldState := State.Transition } := by
  have h : IsTransitioning { s with WalkSound := false, m_Velocity := FVector.zero } = true :=
    (IsTransitioning_iff _).mpr hT
  simp only [Transition, h, RotateCamera, hr]
  rfl

/-- The `Transition` handler once the lerp timer has left `[0,1]`. -/
theorem Transition_done (E : Engine) (DeltaTime : ℚ) (s : ABaseSpider)
    (hT : s.m_LerpTimer < 0 ∨ 1 < s.m_LerpTimer) :
    Transition E DeltaTime s =
      some (StickToSurface E
        { (IsOnWeb E { s with WalkSound := false, m_Velocity := FVector.zero }).2 with
          m_State :=
            if (IsOnWeb E { s with WalkSound := false, m_Velocity := FVector.zero }).1
            then State.OnWeb else State.Ground }) := by
  have h : IsTransitioning { s with WalkSound := false, m_Velocity := FVector.zero } = false := by
    rw [Bool.eq_false_iff, Ne, IsTransitioning_iff]
    rintro ⟨h0, h1⟩
    rcases hT with h | h
    · exact absurd h0 (not_le.mpr h)
    · exact absurd h1 (not_le.mpr h)
  simp only [Transition, h]
  rfl

theorem StickToSurface_eq (E : Engine) (s : ABaseSpider) :
    StickToSurface E s =
      { s with
        m_StickRotation := (StickToSurface E s).m_StickRotation
        m_StickPosition := (StickToSurface E s).m_StickPosition
        ColliderLocation := (StickToSurface E s).ColliderLocation
        ColliderRotation := (StickToSurface E s).ColliderRotation } := rfl

theorem timer_cases (x : ℚ) : (0 ≤ x ∧ x ≤ 1) ∨ (x < 0 ∨ 1 < x) := by
  rcases lt_or_le x 0 with h | h
  · exact Or.inr (Or.inl h)
  · rcases lt_or_le 1 x with h1 | h1
    · exact Or.inr (Or.inr h1)
    · exact Or.inl ⟨h, h1⟩

theorem timer_excl {x : ℚ} (hIn : 0 ≤ x ∧ x ≤ 1) (hOut : x < 0 ∨ 1 < x) : False := by
  rcases hOut with h | h
  · exact absurd hIn.1 (not_le.mpr h)
  · exact absurd hIn.2 (not_le.mpr h)

/-- C5. The `Transition` handler, called in state `Transition`, switches out of `Transition`
exactly when `m_LerpTimer` at entry is below 0 or above 1; it then ends in `OnWeb` when
`IsOnWeb()` is true and in `Ground` otherwise; with the timer inside `[0,1]` the state stays
`Transition`.  The handler returns whenever the timer is outside `[0,1]` or a controller is
attached. -/
theorem C5_Transition_exit_iff (E : Engine) (DeltaTime : ℚ) (s : ABaseSpider)
    (hState : s.m_State = State.Transition)
    (hRun : s.m_LerpTimer < 0 ∨ 1 < s.m_LerpTimer ∨ E.Controller ≠ none) :
    ∃ s', Transition E DeltaTime s = some s' ∧
      (s'.m_State ≠ State.Transition ↔ (s.m_LerpTimer < 0 ∨ 1 < s.m_LerpTimer)) ∧
      ((s.m_LerpTimer < 0 ∨ 1 < s.m_LerpTimer) →
        s'.m_State =
          if (IsOnWeb E { s with WalkSound := false, m_Velocity := FVector.zero }).1
          then State.OnWeb else State.Ground) ∧
      ((0 ≤ s.m_LerpTimer ∧ s.m_LerpTimer ≤ 1) → s'.m_State = State.Transition) := by
  rcases timer_cases s.m_LerpTimer with hIn | hOut
  · have hC : E.Controller ≠ none := by
      rcases hRun with h | h | h
      · exact (timer_excl hIn (Or.inl h)).elim
      · exact (timer_excl hIn (Or.inr h)).elim
      · exact h
    obtain ⟨r, hr⟩ := Option.ne_none_iff_exists'.mp hC
    refine ⟨_, Transition_in_progress E DeltaTime s r hIn hr, ?_, ?_, ?_⟩
    · constructor
      · intro h; exact absurd hState h
      · intro h; exact (timer_excl hIn h).elim
    · intro h; exact (timer_excl hIn h).elim
    · intro _; exact hState
  · refine ⟨_, Transition_done E DeltaTime s hOut, ?_, ?_, ?_⟩
    · constructor
      · intro _; exact hOut
      · intro _
        show (if _ then State.OnWeb else State.Ground) ≠ State.Transition
        split <;> simp
    · intro _; rfl
    · intro h; exact (timer_excl h hOut).elim

/-- C5 at concrete inputs: with the timer at 21/20 over a web line the handler ends in
`OnWeb`; with the timer at 1/2 it stays in `Transition`. -/
theorem C5_Transition_exit_iff_witness :
    (∃ s', Transition C5_Engine (1 / 60) C5_Spider = some s' ∧ s'.m_State = State.OnWeb) ∧
    (∃ s', Transition FloorEngine (1 / 60) C5_SpiderInProgress = some s' ∧
      s'.m_State = State.Transition) := by
  constructor
  · obtain ⟨s', h1, -, h3, -⟩ := C5_Transition_exit_iff C5_Engine (1 / 60) C5_Spider rfl
      (Or.inr (Or.inl (by simp [C5_Spider]; norm_num)))
    refine ⟨s', h1, ?_⟩
    rw [h3 (Or.inr (by simp [C5_Spider]; norm_num))]
    norm_num [IsOnWeb, CheckWall, CheckGrounded, HitWall, IsGrounded, MountWebLine, C5_Engine,
      C5_Spider, LevelEngine, WebLineHit, SpiderForward, SpiderUp, FVector.add, FVector.sub,
      FVector.smul, RAYCAST_LENGTH]
  · obtain ⟨s', h1, -, -, h4⟩ :=
      C5_Transition_exit_iff FloorEngine (1 / 60) C5_SpiderInProgress rfl
        (Or.inr (Or.inr (by simp [FloorEngine, LevelEngine])))
    exact ⟨s', h1, h4 (by simp [C5_SpiderInProgress]; norm_num)⟩

/-- The rate computed by `SetTransition` is not negative when `WallInterpolateTime` is
positive and either `FMath::Acos` stays below the threshold 90 (it returns radians, at most π)
or `LargeLerpCompensation` is positive. -/
theorem SetTransition_m_LerpRatio_nonneg (E : Engine) (HitResult : FHitResult) (s : ABaseSpider)
    (hW : 0 < s.WallInterpolateTime)
    (hRate : (∀ x, E.Acos x < 90) ∨ 0 < s.LargeLerpCompensation) :
    0 ≤ (SetTransition E HitResult s).m_LerpRatio := by
  show 0 ≤ (CalcLerpRatio E (CalcSurfaceStickPoint E HitResult s)).m_LerpRatio
  unfold CalcLerpRatio
  dsimp only
  split
  · exact le_of_lt (one_div_pos.mpr hW)
  · next hA =>
    rcases hRate with h | h
    · exact absurd (h _) hA
    · have hA' : (0 : ℚ) < LerpAngle E (CalcSurfaceStickPoint E HitResult s) :=
        lt_of_lt_of_le (by norm_num) (not_lt.mp hA)
      have hW' : 0 < (CalcSurfaceStickPoint E HitResult s).WallInterpolateTime := hW
      have hL' : 0 < (CalcSurfaceStickPoint E HitResult s).LargeLerpCompensation := h
      exact le_of_lt (one_div_pos.mpr
        (mul_pos (mul_pos hW' (div_pos (by norm_num) hA')) hL'))

/-- C6. `m_LerpTimer` does not decrease in a `Transition` frame: with `DeltaTime ≥ 0`, a
positive `WallInterpolateTime` and the rate left by a `SetTransition`, the timer after the
handler is at least the timer before, and it grows by exactly
`m_LerpRatio * DeltaTime / WallInterpolateTime` while the lerp is in progress; the rate and
`WallInterpolateTime` are left as they were, so the same holds in the next frame. -/
theorem C6_LerpTimer_nondecreasing (E : Engine) (DeltaTime : ℚ) (HitResult : FHitResult)
    (s0 s : ABaseSpider)
    (hDelta : 0 ≤ DeltaTime)
    (hW : 0 < s.WallInterpolateTime)
    (hRate : (∀ x, E.Acos x < 90) ∨ 0 < s0.LargeLerpCompensation)
    (hW0 : s0.WallInterpolateTime = s.WallInterpolateTime)
    (hSet : s.m_LerpRatio = (SetTransition E HitResult s0).m_LerpRatio)
    (hRun : s.m_LerpTimer < 0 ∨ 1 < s.m_LerpTimer ∨ E.Controller ≠ none) :
    ∃ s', Transition E DeltaTime s = some s' ∧
      s.m_LerpTimer ≤ s'.m_LerpTimer ∧
      ((0 ≤ s.m_LerpTimer ∧ s.m_LerpTimer ≤ 1) →
        s'.m_LerpTimer = s.m_LerpTimer + s.m_LerpRatio * DeltaTime / s.WallInterpolateTime) ∧
      s'.m_LerpRatio = s.m_LerpRatio ∧ s'.WallInterpolateTime = s.WallInterpolateTime := by
  have hR : 0 ≤ s.m_LerpRatio := by
    rw [hSet]
    exact SetTransition_m_LerpRatio_nonneg E HitResult s0 (hW0 ▸ hW) hRate
  have hStep : 0 ≤ s.m_LerpRatio * DeltaTime / s.WallInterpolateTime :=
    div_nonneg (mul_nonneg hR hDelta) (le_of_lt hW)
  rcases timer_cases s.m_LerpTimer with hIn | hOut
  · have hC : E.Controller ≠ none := by
      rcases hRun with h | h | h
      · exact (timer_excl hIn (Or.inl h)).elim
      · exact (timer_excl hIn (Or.inr h)).elim
      · exact h
    obtain ⟨r, hr⟩ := Option.ne_none_iff_exists'.mp hC
    refine ⟨_, Transition_in_progress E DeltaTime s r hIn hr, ?_, ?_, ?_, ?_⟩
    · exact le_add_of_nonneg_right hStep
    · intro _; rfl
    · rfl
    · rfl
  · refine ⟨_, Transition_done E DeltaTime s hOut, ?_, ?_, ?_, ?_⟩
    · rw [StickToSurface_eq]
      dsimp only
      rw [IsOnWeb_snd]
    · intro h; exact (timer_excl h hOut).elim
    · rw [StickToSurface_eq]
      dsimp only
      rw [IsOnWeb_snd]
    · rw [StickToSurface_eq]
      dsimp only
      rw [IsOnWeb_snd]

/-- The arc cosine of the level world stays below the threshold 90. -/
theorem LevelEngine_Acos_lt (Down Forward : FHitResult) (Controller : Option FRotator)
    (x : ℚ) : (LevelEngine Down Forward Controller).Acos x < 90 := by
  show (if x ≤ 0 then (2 : ℚ) else if x < 1 then 1 else 0) < 90
  split_ifs <;> norm_num

/-- C6 at a concrete input: the first `Transition` frame after `SetTransition`, with
`DeltaTime = 1/60` and the default `WallInterpolateTime = 7/10`, moves the timer from 0 to
`(10/7) * (1/60) / (7/10) = 5/147`. -/
theorem C6_LerpTimer_nondecreasing_witness :
    ∃ s', Transition FloorEngine (1 / 60) C6_Spider = some s' ∧
      C6_Spider.m_LerpTimer ≤ s'.m_LerpTimer ∧ s'.m_LerpTimer = 5 / 147 := by
  have hR : C6_Spider.m_LerpRatio = 10 / 7 := by
    simp [C6_Spider, SetTransition, CalcLerpRatio, CalcSurfaceStickPoint, LerpAngle,
      FloorEngine, LevelEngine, SpiderUp, FVector.Dot, FVector.zero]
    norm_num
  have hTm : C6_Spider.m_LerpTimer = 0 := rfl
  have hWt : C6_Spider.WallInterpolateTime = 7 / 10 := by
    show (SetTransition FloorEngine (FloorHit 10) {}).WallInterpolateTime = 7 / 10
    rw [SetTransition_eq]
  obtain ⟨s', h1, h2, h3, -, -⟩ :=
    C6_LerpTimer_nondecreasing FloorEngine (1 / 60) (FloorHit 10) {} C6_Spider
      (by norm_num) (by rw [hWt]; norm_num)
      (Or.inl (LevelEngine_Acos_lt _ _ _)) (by rw [hWt]) rfl
      (Or.inr (Or.inr (by simp [FloorEngine, LevelEngine])))
  refine ⟨s', h1, h2, ?_⟩
  rw [h3 (by rw [hTm]; norm_num), hTm, hR, hWt]
  norm_num

theorem GroundedSound_some (s : ABaseSpider) (h : s.m_DownHitResult.Actor ≠ none) :
    ∃ s', GroundedSound s = some s' ∧ s'.m_Velocity = s.m_Velocity ∧
      s'.m_State = s.m_State := by
  obtain ⟨a, ha⟩ := Option.ne_none_iff_exists'.mp h
  unfold GroundedSound
  rw [ha]
  dsimp only
  split
  · exact ⟨_, rfl, rfl, rfl⟩
  · exact ⟨_, rfl, rfl, rfl⟩

theorem Grounded_walk (E : Engine) (DeltaTime : ℚ) (s : ABaseSpider) (r : FRotator)
    (hCtl : E.Controller = some r)
    (hNoChange : ChangedGround E (CheckWall E (CheckGrounded E s).2).2 = false)
    (hNoWall : (HitWall (CheckWall E (CheckGrounded E s).2).2 &&
      IsMoving (CheckWall E (CheckGrounded E s).2).2) = false)
    (hGrounded : IsGrounded (CheckWall E (CheckGrounded E s).2).2 = true) :
    Grounded E DeltaTime s =
      (let s4 : ABaseSpider :=
        { (CheckWall E (CheckGrounded E s).2).2 with
          m_Velocity := FVector.zero
          CameraRelativeRotation := ⟨r.Pitch, 0, 0⟩
          SpiderRelativeRotation := ⟨0, r.Yaw, 0⟩ }
      let s5 := HandleMove (SpiderForward E s4) s4
      if IsMoving s5 then
        let s6 := StickToSurface E s5
        if ChangedGround E s6 then
          let w := IsOnWeb E s6
          if w.1 then some { w.2 with m_State := State.OnWeb, m_Velocity := FVector.zero }
          else GroundedSound w.2
        else GroundedSound s6
      else GroundedSound s5) := by
  unfold Grounded
  simp only [hNoChange, hNoWall, hGrounded, RotateCamera, RotateBody, hCtl]
  rfl

/-- C8. A `Ground` frame in which no ground change and no wall hit while moving is detected
and the creature is grounded leaves the velocity equal to the surface-forward vector scaled by
`MovementSpeed * inputY`, whatever the velocity was before; with `inputY = 0` the velocity is
zero.  Here `s2` is the state after the two probes, the forward vector is that of the body
once `RotateBody` has applied the control yaw, a controller is attached, the ground sample has
an actor, and the ground check repeated after re-sticking (when moving) detects no change. -/
theorem C8_Grounded_velocity (E : Engine) (DeltaTime : ℚ) (s s2 : ABaseSpider) (r : FRotator)
    (hs2 : s2 = (CheckWall E (CheckGrounded E s).2).2)
    (hCtl : E.Controller = some r)
    (hNoChange : ChangedGround E s2 = false)
    (hNoWall : (HitWall s2 && IsMoving s2) = false)
    (hGrounded : IsGrounded s2 = true)
    (hActor : s2.m_DownHitResult.Actor ≠ none)
    (hStick : s.ControlInputVector.Y ≠ 0 →
      ChangedGround E (StickToSurface E { s2 with SpiderRelativeRotation := ⟨0, r.Yaw, 0⟩ })
        = false) :
    ∃ s', Grounded E DeltaTime s = some s' ∧
      s'.m_Velocity =
        (E.GetForwardVector s.ColliderRotation ⟨0, r.Yaw, 0⟩).smul
          (s.MovementSpeed * s.ControlInputVector.Y) ∧
      (s.ControlInputVector.Y = 0 → s'.m_Velocity = FVector.zero) := by
  subst hs2
  have hfield : ∀ x : ABaseSpider, (CheckWall E (CheckGrounded E s).2).2 = x →
      x.ColliderRotation = s.ColliderRotation ∧ x.MovementSpeed = s.MovementSpeed ∧
      x.ControlInputVector = s.ControlInputVector := by
    intro x hx
    rw [← hx, CheckWall_snd]
    exact ⟨rfl, rfl, rfl⟩
  obtain ⟨hRot, hSpeed, hInput⟩ := hfield _ rfl
  rw [Grounded_walk E DeltaTime s r hCtl hNoChange hNoWall hGrounded]
  generalize (CheckWall E (CheckGrounded E s).2).2 = s2 at hRot hSpeed hInput hActor hStick ⊢
  have hv : (HandleMove (SpiderForward E
        { s2 with
          m_Velocity := FVector.zero
          CameraRelativeRotation := ⟨r.Pitch, 0, 0⟩
          SpiderRelativeRotation := ⟨0, r.Yaw, 0⟩ })
        { s2 with
          m_Velocity := FVector.zero
          CameraRelativeRotation := ⟨r.Pitch, 0, 0⟩
          SpiderRelativeRotation := ⟨0, r.Yaw, 0⟩ }).m_Velocity =
      (E.GetForwardVector s.ColliderRotation ⟨0, r.Yaw, 0⟩).smul
        (s.MovementSpeed * s.ControlInputVector.Y) := by
    show FVector.zero.add ((E.GetForwardVector s2.ColliderRotation ⟨0, r.Yaw, 0⟩).smul
      (s2.ControlInputVector.Y * s2.MovementSpeed)) = _
    rw [FVector.zero_add, hRot, hSpeed, hInput, mul_comm]
  have hzero : s.ControlInputVector.Y = 0 →
      (E.GetForwardVector s.ColliderRotation ⟨0, r.Yaw, 0⟩).smul
        (s.MovementSpeed * s.ControlInputVector.Y) = FVector.zero := by
    intro h0
    rw [h0, mul_zero, FVector.smul_zero]
  dsimp only
  split
  · next hMove =>
    have hY : s.ControlInputVector.Y ≠ 0 := by
      intro h0
      rw [IsMoving, hv, hzero h0, FVector.SquaredLength_zero] at hMove
      norm_num [FLT_EPSILON] at hMove
    have hSt : ChangedGround E (StickToSurface E (HandleMove (SpiderForward E
        { s2 with
          m_Velocity := FVector.zero
          CameraRelativeRotation := ⟨r.Pitch, 0, 0⟩
          SpiderRelativeRotation := ⟨0, r.Yaw, 0⟩ })
        { s2 with
          m_Velocity := FVector.zero
          CameraRelativeRotation := ⟨r.Pitch, 0, 0⟩
          SpiderRelativeRotation := ⟨0, r.Yaw, 0⟩ })) = false := hStick hY
    rw [if_neg (by rw [hSt]; simp)]
    obtain ⟨s', h1, h2, -⟩ := GroundedSound_some (StickToSurface E (HandleMove (SpiderForward E
        { s2 with
          m_Velocity := FVector.zero
          CameraRelativeRotation := ⟨r.Pitch, 0, 0⟩
          SpiderRelativeRotation := ⟨0, r.Yaw, 0⟩ })
        { s2 with
          m_Velocity := FVector.zero
          CameraRelativeRotation := ⟨r.Pitch, 0, 0⟩
          SpiderRelativeRotation := ⟨0, r.Yaw, 0⟩ })) hActor
    refine ⟨s', h1, ?_, ?_⟩
    · rw [h2]; exact hv
    · intro h0; exact absurd h0 hY
  · obtain ⟨s', h1, h2, -⟩ := GroundedSound_some (HandleMove (SpiderForward E
        { s2 with
          m_Velocity := FVector.zero
          CameraRelativeRotation := ⟨r.Pitch, 0, 0⟩
          SpiderRelativeRotation := ⟨0, r.Yaw, 0⟩ })
        { s2 with
          m_Velocity := FVector.zero
          CameraRelativeRotation := ⟨r.Pitch, 0, 0⟩
          SpiderRelativeRotation := ⟨0, r.Yaw, 0⟩ }) hActor
    refine ⟨s', h1, ?_, ?_⟩
    · rw [h2]; exact hv
    · intro h0; rw [h2, hv]; exact hzero h0

/-- C8 at a concrete input: forward `(1,0,0)`, `MovementSpeed = 1000` and `inputY = 1` give
the velocity `(1000, 0, 0)`. -/
theorem C8_Grounded_velocity_witness :
    ∃ s', Grounded FloorEngine (1 / 60) C8_Spider = some s' ∧ s'.m_Velocity = ⟨1000, 0, 0⟩ := by
  have hs2 : (CheckWall FloorEngine (CheckGrounded FloorEngine C8_Spider).2).2 =
      { C8_Spider with m_DownHitResult := FloorHit 10, m_ForwardHitResult := {} } := by
    norm_num [CheckWall, CheckGrounded, HitWall, FloorEngine, C8_Spider, LevelEngine, SpiderUp,
      SpiderForward, FVector.add, FVector.sub, FVector.smul, RAYCAST_LENGTH]
  obtain ⟨s', h1, h2, -⟩ := C8_Grounded_velocity FloorEngine (1 / 60) C8_Spider _ {} hs2.symm rfl
    (by norm_num [ChangedGround, IsGrounded, FVector.Equals, FloorEngine, C8_Spider, LevelEngine,
      FloorHit, NORMAL_TOLERANCE])
    (by norm_num [HitWall])
    (by norm_num [IsGrounded, FloorHit, C8_Spider])
    (by simp [FloorHit])
    (fun _ => by
      norm_num [ChangedGround, StickToSurface, CalcSurfaceStickPoint, IsGrounded,
        FVector.Equals, FloorEngine, C8_Spider, LevelEngine, FloorHit, NORMAL_TOLERANCE])
  refine ⟨s', h1, ?_⟩
  rw [h2]
  norm_num [FloorEngine, C8_Spider, LevelEngine, FVector.smul]

theorem FVector.Equals_eq_false_iff (a b : FVector) (Tolerance : ℚ) :
    a.Equals b Tolerance = false ↔
      (Tolerance < |a.X - b.X| ∨ Tolerance < |a.Y - b.Y| ∨ Tolerance < |a.Z - b.Z|) := by
  unfold FVector.Equals
  simp only [Bool.and_eq_false_iff, decide_eq_false_iff_not, not_le]
  tauto

/-- C9. `ChangedGround()` is true exactly when `m_DownHitResult` is a valid blocking hit
within `GroundCheckDistance` and the actor's up-vector differs from its normal by more than
`NORMAL_TOLERANCE` in some component.  With the up-vector `(0,0,1)` it is false for the normal
`(0,0,1)` and true for a grounded hit with normal `(1,0,0)`.  A `Ground` frame in which it is
true after the probes calls `SetTransition(m_DownHitResult)` and ends in `Transition`. -/
theorem C9_ChangedGround (E : Engine) (DeltaTime : ℚ) (s s2 : ABaseSpider)
    (hs2 : s2 = (CheckWall E (CheckGrounded E s).2).2) :
    (ChangedGround E s = true ↔
      (s.m_DownHitResult.IsValidBlockingHit = true ∧
        s.m_DownHitResult.Distance ≤ s.GroundCheckDistance ∧
        (NORMAL_TOLERANCE <
            |(E.GetActorUpVector s.ColliderRotation).X - s.m_DownHitResult.ImpactNormal.X| ∨
          NORMAL_TOLERANCE <
            |(E.GetActorUpVector s.ColliderRotation).Y - s.m_DownHitResult.ImpactNormal.Y| ∨
          NORMAL_TOLERANCE <
            |(E.GetActorUpVector s.ColliderRotation).Z - s.m_DownHitResult.ImpactNormal.Z|))) ∧
    (E.GetActorUpVector s.ColliderRotation = ⟨0, 0, 1⟩ →
      s.m_DownHitResult.ImpactNormal = ⟨0, 0, 1⟩ → ChangedGround E s = false) ∧
    (E.GetActorUpVector s.ColliderRotation = ⟨0, 0, 1⟩ →
      s.m_DownHitResult.ImpactNormal = ⟨1, 0, 0⟩ → IsGrounded s = true →
      ChangedGround E s = true) ∧
    (ChangedGround E s2 = true →
      Grounded E DeltaTime s =
          some (StopAllSounds
            { SetTransition E s2.m_DownHitResult s2 with
              m_State := State.Transition, m_Velocity := FVector.zero }) ∧
        ∃ s', Grounded E DeltaTime s = some s' ∧ s'.m_State = State.Transition) := by
  have hiff : ∀ x : ABaseSpider, ChangedGround E x = true ↔
      (x.m_DownHitResult.IsValidBlockingHit = true ∧
        x.m_DownHitResult.Distance ≤ x.GroundCheckDistance ∧
        (NORMAL_TOLERANCE <
            |(E.GetActorUpVector x.ColliderRotation).X - x.m_DownHitResult.ImpactNormal.X| ∨
          NORMAL_TOLERANCE <
            |(E.GetActorUpVector x.ColliderRotation).Y - x.m_DownHitResult.ImpactNormal.Y| ∨
          NORMAL_TOLERANCE <
            |(E.GetActorUpVector x.ColliderRotation).Z - x.m_DownHitResult.ImpactNormal.Z|)) := by
    intro x
    unfold ChangedGround IsGrounded
    rw [Bool.and_eq_true, Bool.and_eq_true, Bool.not_eq_true', FVector.Equals_eq_false_iff,
      decide_eq_true_iff]
    tauto
  refine ⟨hiff s, ?_, ?_, ?_⟩
  · intro hUp hN
    rw [Bool.eq_false_iff, Ne, hiff, hUp, hN]
    norm_num [NORMAL_TOLERANCE]
  · intro hUp hN hG
    unfold IsGrounded at hG
    rw [Bool.and_eq_true, decide_eq_true_iff] at hG
    rw [hiff, hUp, hN]
    exact ⟨hG.1, hG.2, Or.inl (by norm_num [NORMAL_TOLERANCE])⟩
  · intro hC
    subst hs2
    have hG : Grounded E DeltaTime s =
        some (StopAllSounds
          { SetTransition E (CheckWall E (CheckGrounded E s).2).2.m_DownHitResult
              (CheckWall E (CheckGrounded E s).2).2 with
            m_State := State.Transition, m_Velocity := FVector.zero }) := by
      unfold Grounded
      simp only [hC]
      rfl
    exact ⟨hG, _, hG, rfl⟩

/-- C9 at a concrete input: with up `(0,0,1)` the floor sample of normal `(0,0,1)` is no
ground change; once the downward probe returns the normal `(1,0,0)` at distance 10 the
`Ground` frame ends in `Transition`. -/
theorem C9_ChangedGround_witness :
    ChangedGround C9_Engine C9_Spider = false ∧
      ∃ s', Grounded C9_Engine (1 / 60) C9_Spider = some s' ∧
        s'.m_State = State.Transition := by
  have hs2 : (CheckWall C9_Engine (CheckGrounded C9_Engine C9_Spider).2).2 =
      { C9_Spider with m_DownHitResult := SideHit 10, m_ForwardHitResult := {} } := by
    norm_num [CheckWall, CheckGrounded, HitWall, C9_Engine, C9_Spider, LevelEngine, SpiderUp,
      SpiderForward, FVector.add, FVector.sub, FVector.smul, RAYCAST_LENGTH]
  obtain ⟨-, hFlat, -, -⟩ := C9_ChangedGround C9_Engine (1 / 60) C9_Spider _ hs2.symm
  obtain ⟨-, -, hSide, -⟩ := C9_ChangedGround C9_Engine (1 / 60)
    { C9_Spider with m_DownHitResult := SideHit 10, m_ForwardHitResult := {} }
    { C9_Spider with m_DownHitResult := SideHit 10, m_ForwardHitResult := {} } (by
      norm_num [CheckWall, CheckGrounded, HitWall, C9_Engine, C9_Spider, LevelEngine, SpiderUp,
        SpiderForward, FVector.add, FVector.sub, FVector.smul, RAYCAST_LENGTH])
  have hTrue := hSide rfl rfl (by norm_num [IsGrounded, SideHit, C9_Spider])
  refine ⟨hFlat rfl rfl, ?_⟩
  obtain ⟨-, -, -, hFrame1⟩ := C9_ChangedGround C9_Engine (1 / 60) C9_Spider _ hs2.symm
  exact (hFrame1 hTrue).2

theorem RotateCamera_none (E : Engine) (s : ABaseSpider) (h : E.Controller = none) :
    RotateCamera E s = none := by
  unfold RotateCamera; rw [h]

theorem RotateBody_none (E : Engine) (s : ABaseSpider) (h : E.Controller = none) :
    RotateBody E s = none := by
  unfold RotateBody; rw [h]

theorem StandardFalling_none (E : Engine) (DeltaTime : ℚ) (s : ABaseSpider)
    (h : E.Controller = none) : StandardFalling E DeltaTime s = none := by
  unfold StandardFalling
  rw [RotateCamera_none E _ h]
  rfl

/-- Without a controller a `Ground` frame that stays on the ground fails. -/
theorem Grounded_none (E : Engine) (DeltaTime : ℚ) (s : ABaseSpider)
    (h : E.Controller = none)
    (hNoChange : ChangedGround E (CheckWall E (CheckGrounded E s).2).2 = false)
    (hNoWall : (HitWall (CheckWall E (CheckGrounded E s).2).2 &&
      IsMoving (CheckWall E (CheckGrounded E s).2).2) = false)
    (hGrounded : IsGrounded (CheckWall E (CheckGrounded E s).2).2 = true) :
    Grounded E DeltaTime s = none := by
  unfold Grounded
  simp only [hNoChange, hNoWall, hGrounded, RotateCamera_none E _ h]
  rfl

/-- Without a controller an `OnWeb` frame that stays on the web fails. -/
theorem OnWeb_none (E : Engine) (DeltaTime : ℚ) (s : ABaseSpider)
    (h : E.Controller = none)
    (hNoWall : (HitWall (CheckWall E (CheckGrounded E s).2).2 &&
      IsMoving (CheckWall E (CheckGrounded E s).2).2) = false)
    (hGrounded : IsGrounded (CheckWall E (CheckGrounded E s).2).2 = true) :
    OnWeb E DeltaTime s = none := by
  unfold OnWeb
  simp only [hNoWall, hGrounded, RotateCamera_none E _ h]
  rfl

/-- Without a controller a `Transition` frame with the lerp in progress fails. -/
theorem Transition_none (E : Engine) (DeltaTime : ℚ) (s : ABaseSpider)
    (h : E.Controller = none) (hT : 0 ≤ s.m_LerpTimer ∧ s.m_LerpTimer ≤ 1) :
    Transition E DeltaTime s = none := by
  have hT' : IsTransitioning { s with WalkSound := false, m_Velocity := FVector.zero } = true :=
    (IsTransitioning_iff _).mpr hT
  unfold Transition
  simp only [hT', RotateCamera_none E _ h]
  rfl

/-- Without a controller a `Jumping` frame before the timer expires fails. -/
theorem Jumping_none (E : Engine) (DeltaTime : ℚ) (s : ABaseSpider)
    (h : E.Controller = none) (hT : 0 ≤ s.m_JumpImmuneTimer - DeltaTime) :
    Jumping E DeltaTime s = none := by
  unfold Jumping
  dsimp only
  rw [if_neg (not_lt.mpr hT), StandardFalling_none E _ _ h]
  rfl

/-- Without a controller a `Fall` frame with no wall ahead and no sweep hit fails. -/
theorem Falling_none (E : Engine) (DeltaTime : ℚ) (s : ABaseSpider)
    (h : E.Controller = none) (hWall : (CheckWall E s).1 = false)
    (hSweep :
      (E.LineTrace s.ColliderLocation
        (s.ColliderLocation.add (s.m_Velocity.smul DeltaTime))).IsValidBlockingHit = false) :
    Falling E DeltaTime s = none := by
  have hw1 : (CheckWall E { s with WalkSound := false }).1 = false := by
    rw [CheckWall_fst_WalkSound]; exact hWall
  have hl := CheckWall_snd_ColliderLocation E { s with WalkSound := false }
  have hv := CheckWall_snd_m_Velocity E { s with WalkSound := false }
  dsimp only at hl hv
  simp only [Falling, hw1, CollisionPrediction, hl, hv, hSweep, StandardFalling_none E _ _ h]
  rfl

/-- The two probes of a frame leave the standing spider with the floor sample below and the
empty sample ahead. -/
theorem C10_probes (st : State) :
    (CheckWall C10_Engine (CheckGrounded C10_Engine (C10_Spider st)).2).2 =
      { C10_Spider st with m_ForwardHitResult := {} } := by
  norm_num [CheckWall, CheckGrounded, HitWall, C10_Engine, C10_Spider, LevelEngine, SpiderUp,
    SpiderForward, FVector.add, FVector.sub, FVector.smul, RAYCAST_LENGTH]

/-- C10 fails on the code. `RotateCamera` and `RotateBody` dereference `GetController()`
without a check: with no controller attached both fail in every state, and so does the frame
of each handler that reaches them (`Ground`, `OnWeb`, `Transition`, `Jumping` standing on a
floor, and `Fall` for the spider as spawned in the air). -/
theorem C10_absent_controller_fails :
    (∀ s, RotateCamera C10_Engine s = none ∧ RotateBody C10_Engine s = none) ∧
      Tick C10_Engine (1 / 60) (C10_Spider State.Ground) = none ∧
      Tick C10_Engine (1 / 60) (C10_Spider State.OnWeb) = none ∧
      Tick C10_Engine (1 / 60) (C10_Spider State.Transition) = none ∧
      Tick C10_Engine (1 / 60) (C10_Spider State.Jumping) = none ∧
      Tick (LevelEngine {} {} none) (1 / 60) {} = none := by
  have hHW : ∀ st, (HitWall (CheckWall C10_Engine (CheckGrounded C10_Engine (C10_Spider st)).2).2
      && IsMoving (CheckWall C10_Engine (CheckGrounded C10_Engine (C10_Spider st)).2).2)
        = false := by
    intro st
    rw [C10_probes]
    norm_num [HitWall]
  have hIG : ∀ st,
      IsGrounded (CheckWall C10_Engine (CheckGrounded C10_Engine (C10_Spider st)).2).2
        = true := by
    intro st
    rw [C10_probes]
    norm_num [IsGrounded, C10_Spider, FloorHit]
  refine ⟨fun s => ⟨rfl, rfl⟩, ?_, ?_, ?_, ?_, ?_⟩
  · show (Grounded C10_Engine (1 / 60) (C10_Spider State.Ground)).bind _ = none
    rw [Grounded_none C10_Engine _ _ rfl (by
      rw [C10_probes]
      norm_num [ChangedGround, IsGrounded, FVector.Equals, C10_Engine, C10_Spider, LevelEngine,
        FloorHit, NORMAL_TOLERANCE]) (hHW _) (hIG _)]
    rfl
  · show (OnWeb C10_Engine (1 / 60) (C10_Spider State.OnWeb)).bind _ = none
    rw [OnWeb_none C10_Engine _ _ rfl (hHW _) (hIG _)]
    rfl
  · show (Transition C10_Engine (1 / 60) (C10_Spider State.Transition)).bind _ = none
    rw [Transition_none C10_Engine _ _ rfl (by norm_num [C10_Spider])]
    rfl
  · show (Jumping C10_Engine (1 / 60) (C10_Spider State.Jumping)).bind _ = none
    rw [Jumping_none C10_Engine _ _ rfl (by norm_num [C10_Spider])]
    rfl
  · show (Falling (LevelEngine {} {} none) (1 / 60) {}).bind _ = none
    rw [Falling_none (LevelEngine {} {} none) _ _ rfl
      (by
        rw [CheckWall_fst]
        norm_num [ForwardTrace, LevelEngine, SpiderForward, FVector.add, FVector.smul,
          FVector.zero, RAYCAST_LENGTH])
      (by norm_num [LevelEngine, FVector.add, FVector.smul, FVector.zero])]
    rfl

/-! ## The two probes at the start of a `Ground` or `OnWeb` frame -/

theorem probes_IsGrounded (E : Engine) (s : ABaseSpider) :
    IsGrounded (CheckWall E (CheckGrounded E s).2).2 = (CheckGrounded E s).1 := by
  rw [CheckWall_snd]
  rfl

theorem HitWall_CheckWall (E : Engine) (s : ABaseSpider) :
    HitWall (CheckWall E s).2 = (CheckWall E s).1 := by
  unfold CheckWall
  dsimp only
  split
  · next h => exact h
  · rfl

theorem probes_HitWall (E : Engine) (s : ABaseSpider) :
    HitWall (CheckWall E (CheckGrounded E s).2).2 = (CheckWall E s).1 := by
  rw [HitWall_CheckWall, CheckWall_fst, CheckWall_fst]
  rfl

theorem probes_IsMoving (E : Engine) (s : ABaseSpider) :
    IsMoving (CheckWall E (CheckGrounded E s).2).2 = IsMoving s := by
  rw [CheckWall_snd]
  rfl

/-- The `OnWeb` handler in a frame that stays on the web with a controller attached. -/
theorem OnWeb_walk (E : Engine) (DeltaTime : ℚ) (s : ABaseSpider) (r : FRotator)
    (hCtl : E.Controller = some r)
    (hGrounded : (CheckGrounded E s).1 = true)
    (hNoWall : ((CheckWall E s).1 && IsMoving s) = false) :
    OnWeb E DeltaTime s =
      (let s4 : ABaseSpider :=
        { (CheckWall E (CheckGrounded E s).2).2 with
          m_Velocity := FVector.zero
          CameraRelativeRotation := ⟨r.Pitch, 0, 0⟩
          SpiderRelativeRotation := ⟨0, r.Yaw, 0⟩ }
      let Direction := Normalize E (s4.m_EndLinePoint.sub s4.m_StartLinePoint)
      let cosAngle := (SpiderForward E s4).Dot Direction
      let s5 := HandleMove (Direction.smul (Sign cosAngle)) s4
      some { s5 with
        WebWalkSound := PlaySound s5.WebWalkSound (decide (s5.m_Velocity.SquaredLength > 0))
        m_OldState := State.OnWeb }) := by
  have h1 : IsGrounded (CheckWall E (CheckGrounded E s).2).2 = true := by
    rw [probes_IsGrounded]; exact hGrounded
  have h2 : (HitWall (CheckWall E (CheckGrounded E s).2).2 &&
      IsMoving (CheckWall E (CheckGrounded E s).2).2) = false := by
    rw [probes_HitWall, probes_IsMoving]; exact hNoWall
  unfold OnWeb
  simp only [h1, h2, RotateCamera, RotateBody, hCtl]
  rfl

/-- The velocity left by an `OnWeb` frame that stays on the web: the normalised line
direction, signed by the forward vector, scaled by `inputY * MovementSpeed`. -/
theorem OnWeb_walk_velocity (E : Engine) (DeltaTime : ℚ) (s : ABaseSpider) (r : FRotator)
    (hCtl : E.Controller = some r)
    (hGrounded : (CheckGrounded E s).1 = true)
    (hNoWall : ((CheckWall E s).1 && IsMoving s) = false) :
    ∃ s', OnWeb E DeltaTime s = some s' ∧
      s'.m_Velocity =
        ((Normalize E (s.m_EndLinePoint.sub s.m_StartLinePoint)).smul
          (Sign ((E.GetForwardVector s.ColliderRotation ⟨0, r.Yaw, 0⟩).Dot
            (Normalize E (s.m_EndLinePoint.sub s.m_StartLinePoint))))).smul
          (s.ControlInputVector.Y * s.MovementSpeed) := by
  refine ⟨_, OnWeb_walk E DeltaTime s r hCtl hGrounded hNoWall, ?_⟩
  dsimp only
  unfold HandleMove ConsumeMovementInputVector
  dsimp only
  rw [FVector.zero_add, CheckWall_snd]
  rfl

theorem FVector.sub_self (v : FVector) : v.sub v = FVector.zero := by
  ext <;> simp [FVector.sub, FVector.zero]

theorem FVector.zero_smul (k : ℚ) : FVector.zero.smul k = FVector.zero := by
  ext <;> simp [FVector.smul, FVector.zero]

/-- A vector whose squared length does not exceed the tolerance is left as it is by
`Normalize`. -/
theorem Normalize_short (E : Engine) (v : FVector) (h : v.SquaredLength ≤ UE_SMALL_NUMBER) :
    Normalize E v = v := by
  unfold Normalize
  rw [if_neg (not_lt.mpr h)]

/-- C11 as stated fails: with the line end points a hundred-thousandth apart (squared
length `10⁻¹⁰`, below the tolerance of `Normalize`) an `OnWeb` frame that stays on the web
with input `Y = 1` leaves the velocity `(1/100, 0, 0)`, not zero. -/
theorem C11_near_zero_line_moves_counterexample :
    (C11_Spider.m_EndLinePoint.sub C11_Spider.m_StartLinePoint).SquaredLength
        ≤ UE_SMALL_NUMBER ∧
      ∃ s', OnWeb FloorEngine (1 / 60) C11_Spider = some s' ∧
        s'.m_Velocity = ⟨1 / 100, 0, 0⟩ ∧ s'.m_Velocity ≠ FVector.zero := by
  have hShort : (C11_Spider.m_EndLinePoint.sub C11_Spider.m_StartLinePoint).SquaredLength
      ≤ UE_SMALL_NUMBER := by
    norm_num [C11_Spider, FVector.sub, FVector.SquaredLength, UE_SMALL_NUMBER]
  refine ⟨hShort, ?_⟩
  obtain ⟨s', h1, h2⟩ := OnWeb_walk_velocity FloorEngine (1 / 60) C11_Spider {} rfl
    (by
      rw [CheckGrounded_fst]
      norm_num [FloorEngine, LevelEngine, FloorHit, C11_Spider, SpiderUp, FVector.sub,
        FVector.smul, RAYCAST_LENGTH])
    (by
      rw [CheckWall_fst]
      norm_num [ForwardTrace, FloorEngine, LevelEngine, C11_Spider, SpiderForward, FVector.add,
        FVector.smul, RAYCAST_LENGTH])
  have hv : s'.m_Velocity = ⟨1 / 100, 0, 0⟩ := by
    rw [h2, Normalize_short _ _ hShort]
    norm_num [C11_Spider, FloorEngine, LevelEngine, FVector.sub, FVector.smul, FVector.Dot,
      Sign]
  refine ⟨s', h1, hv, ?_⟩
  rw [hv]
  intro h
  have := congrArg FVector.X h
  norm_num [FVector.zero] at this

/-- C11, amended. In an `OnWeb` frame that stays on the web (grounded, no wall hit while
moving, controller attached): when the two end points coincide the velocity after the handler
is zero for every input and forward vector; when the vector between them is not longer than
the tolerance of `Normalize` (squared length at most `10⁻⁸`) it is used as it is, and the
velocity is that vector, signed by the forward vector and scaled by
`inputY * MovementSpeed`. -/
theorem C11_degenerate_web_line (E : Engine) (DeltaTime : ℚ) (s : ABaseSpider) (r : FRotator)
    (hCtl : E.Controller = some r)
    (hGrounded : (CheckGrounded E s).1 = true)
    (hNoWall : ((CheckWall E s).1 && IsMoving s) = false)
    (hShort : (s.m_EndLinePoint.sub s.m_StartLinePoint).SquaredLength ≤ UE_SMALL_NUMBER) :
    ∃ s', OnWeb E DeltaTime s = some s' ∧
      s'.m_Velocity =
        ((s.m_EndLinePoint.sub s.m_StartLinePoint).smul
          (Sign ((E.GetForwardVector s.ColliderRotation ⟨0, r.Yaw, 0⟩).Dot
            (s.m_EndLinePoint.sub s.m_StartLinePoint)))).smul
          (s.ControlInputVector.Y * s.MovementSpeed) ∧
      (s.m_StartLinePoint = s.m_EndLinePoint → s'.m_Velocity = FVector.zero) := by
  obtain ⟨s', h1, h2⟩ := OnWeb_walk_velocity E DeltaTime s r hCtl hGrounded hNoWall
  rw [Normalize_short E _ hShort] at h2
  refine ⟨s', h1, h2, ?_⟩
  intro hEq
  rw [h2, hEq, FVector.sub_self, FVector.zero_smul, FVector.zero_smul]

/-- C11, amended, at a concrete input: coincident end points `(3,4,5)` and input `Y = 1`
give zero velocity. -/
theorem C11_degenerate_web_line_witness :
    ∃ s', OnWeb FloorEngine (1 / 60) C11_SpiderCoincident = some s' ∧
      s'.m_Velocity = FVector.zero := by
  obtain ⟨s', h1, -, h3⟩ := C11_degenerate_web_line FloorEngine (1 / 60) C11_SpiderCoincident {}
    rfl
    (by
      rw [CheckGrounded_fst]
      norm_num [FloorEngine, LevelEngine, FloorHit, C11_SpiderCoincident, SpiderUp,
        FVector.sub, FVector.smul, RAYCAST_LENGTH])
    (by
      rw [CheckWall_fst]
      norm_num [ForwardTrace, FloorEngine, LevelEngine, C11_SpiderCoincident, SpiderForward,
        FVector.add, FVector.smul, RAYCAST_LENGTH])
    (by
      norm_num [C11_SpiderCoincident, FVector.sub, FVector.SquaredLength, UE_SMALL_NUMBER])
  exact ⟨s', h1, h3 rfl⟩

/-- C12. `CheckWall` never leaves a stale hit: whatever `m_ForwardHitResult` held before, the
call returns true exactly when the fresh forward trace is a valid blocking hit within
`WallCheckDistance`; `m_ForwardHitResult` is then that fresh sample and otherwise the empty
sample, so `HitWall()` after the call equals the returned value. -/
theorem C12_CheckWall_no_stale_hit (E : Engine) (s : ABaseSpider) (Stale : FHitResult) :
    (CheckWall E { s with m_ForwardHitResult := Stale }).1 =
        ((ForwardTrace E s).IsValidBlockingHit &&
          decide ((ForwardTrace E s).Distance ≤ s.WallCheckDistance)) ∧
      (CheckWall E { s with m_ForwardHitResult := Stale }).2.m_ForwardHitResult =
        (if (CheckWall E { s with m_ForwardHitResult := Stale }).1 then ForwardTrace E s
          else {}) ∧
      HitWall (CheckWall E { s with m_ForwardHitResult := Stale }).2 =
        (CheckWall E { s with m_ForwardHitResult := Stale }).1 ∧
      HitWall { s with m_ForwardHitResult := ({} : FHitResult) } = false := by
  refine ⟨?_, ?_, HitWall_CheckWall E _, rfl⟩
  · rw [CheckWall_fst]
    rfl
  · rw [CheckWall_snd]
    rfl

theorem StopAllSounds_flags (s : ABaseSpider) :
    (StopAllSounds s).WalkSound = false ∧ (StopAllSounds s).WebWalkSound = false ∧
      (StopAllSounds s).LandingSound = false := ⟨rfl, rfl, rfl⟩

/-- C14. `StopAllSounds` is idempotent: one call leaves the three cues stopped and changes no
other member, and a second call yields the same state as the first. -/
theorem C14_StopAllSounds_idempotent (s : ABaseSpider) :
    (StopAllSounds s).WalkSound = false ∧ (StopAllSounds s).WebWalkSound = false ∧
      (StopAllSounds s).LandingSound = false ∧
      StopAllSounds (StopAllSounds s) = StopAllSounds s ∧
      StopAllSounds s =
        { s with WalkSound := false, WebWalkSound := false, LandingSound := false } :=
  ⟨rfl, rfl, rfl, rfl, rfl⟩

theorem CollisionPrediction_snd (E : Engine) (DeltaTime : ℚ) (s : ABaseSpider) :
    (CollisionPrediction E DeltaTime s).2 =
      { s with m_DownHitResult := (CollisionPrediction E DeltaTime s).2.m_DownHitResult } := by
  unfold CollisionPrediction
  dsimp only
  split <;> rfl

theorem StandardFalling_sounds {E : Engine} {DeltaTime : ℚ} {s s' : ABaseSpider}
    (h : StandardFalling E DeltaTime s = some s') :
    s'.WalkSound = s.WalkSound ∧ s'.WebWalkSound = s.WebWalkSound ∧
      s'.LandingSound = s.LandingSound := by
  unfold StandardFalling at h
  obtain ⟨s1, h1, h⟩ := Option.bind_eq_some.mp h
  obtain ⟨s2, h2, h⟩ := Option.bind_eq_some.mp h
  obtain ⟨r1, -, e1⟩ := RotateCamera_eq_some h1
  obtain ⟨r2, -, e2⟩ := RotateBody_eq_some h2
  cases h
  rw [e2, e1, RotateToWorld_eq]
  exact ⟨rfl, rfl, rfl⟩

/-- A `Ground` frame returns with the three cues stopped, or in `OnWeb`, or in the state it
started in. -/
theorem Grounded_sounds (E : Engine) (DeltaTime : ℚ) (s s' : ABaseSpider)
    (h : Grounded E DeltaTime s = some s') :
    (s'.WalkSound = false ∧ s'.WebWalkSound = false ∧ s'.LandingSound = false) ∨
      s'.m_State = State.OnWeb ∨ s'.m_State = s.m_State := by
  unfold Grounded at h
  dsimp only at h
  split at h
  · cases h
    exact Or.inl ⟨rfl, rfl, rfl⟩
  · split at h
    · cases h
      exact Or.inl ⟨rfl, rfl, rfl⟩
    · split at h
      · cases h
        exact Or.inl ⟨rfl, rfl, rfl⟩
      · obtain ⟨s3, h3, h⟩ := Option.bind_eq_some.mp h
        obtain ⟨s4, h4, h⟩ := Option.bind_eq_some.mp h
        obtain ⟨r3, -, e3⟩ := RotateCamera_eq_some h3
        obtain ⟨r4, -, e4⟩ := RotateBody_eq_some h4
        have hs4 : s4.m_State = s.m_State := by
          rw [e4, e3, CheckWall_snd]; rfl
        refine Or.inr ?_
        split at h
        · split at h
          · split at h
            · cases h
              exact Or.inl rfl
            · rw [GroundedSound_eq_some h, IsOnWeb_snd]
              exact Or.inr hs4
          · rw [GroundedSound_eq_some h]
            exact Or.inr hs4
        · rw [GroundedSound_eq_some h]
          exact Or.inr hs4

/-- An `OnWeb` frame returns with the three cues stopped, or in the state it started in. -/
theorem OnWeb_sounds (E : Engine) (DeltaTime : ℚ) (s s' : ABaseSpider)
    (h : OnWeb E DeltaTime s = some s') :
    (s'.WalkSound = false ∧ s'.WebWalkSound = false ∧ s'.LandingSound = false) ∨
      s'.m_State = s.m_State := by
  unfold OnWeb at h
  dsimp only at h
  split at h
  · cases h
    exact Or.inl ⟨rfl, rfl, rfl⟩
  · split at h
    · cases h
      exact Or.inl ⟨rfl, rfl, rfl⟩
    · obtain ⟨s3, h3, h⟩ := Option.bind_eq_some.mp h
      obtain ⟨s4, h4, h⟩ := Option.bind_eq_some.mp h
      obtain ⟨r3, -, e3⟩ := RotateCamera_eq_some h3
      obtain ⟨r4, -, e4⟩ := RotateBody_eq_some h4
      have hs4 : s4.m_State = s.m_State := by
        rw [e4, e3, CheckWall_snd]; rfl
      cases h
      exact Or.inr hs4

/-- A `Fall` frame returns with the walk cue stopped, and with the landing cue started unless
it stays in the state it started in. -/
theorem Falling_sounds (E : Engine) (DeltaTime : ℚ) (s s' : ABaseSpider)
    (h : Falling E DeltaTime s = some s') :
    s'.WalkSound = false ∧ (s'.LandingSound = true ∨ s'.m_State = s.m_State) := by
  have hw : (CheckWall E { s with WalkSound := false }).2.WalkSound = false := by
    rw [CheckWall_snd]
  have hc : (CollisionPrediction E DeltaTime
      (CheckWall E { s with WalkSound := false }).2).2.WalkSound = false := by
    rw [CollisionPrediction_snd]; exact hw
  unfold Falling at h
  dsimp only at h
  split at h
  · cases h
    refine ⟨?_, Or.inl rfl⟩
    show (SetTransition E _ _).WalkSound = false
    rw [SetTransition_eq]; exact hw
  · split at h
    · cases h
      refine ⟨?_, Or.inl rfl⟩
      dsimp only
      split
      · show (SetTransition E _ _).WalkSound = false
        rw [SetTransition_eq]; exact hc
      · show (StickToSurface E _).WalkSound = false
        rw [StickToSurface_eq]; exact hc
    · obtain ⟨s3, h3, h⟩ := Option.bind_eq_some.mp h
      cases h
      refine ⟨?_, Or.inr ?_⟩
      · show s3.WalkSound = false
        rw [(StandardFalling_sounds h3).1]; exact hc
      · show s3.m_State = s.m_State
        rw [(StandardFalling_eq_some h3).1, CollisionPrediction_snd, CheckWall_snd]

/-- A `Transition` frame returns with the walk cue stopped. -/
theorem Transition_sounds (E : Engine) (DeltaTime : ℚ) (s s' : ABaseSpider)
    (h : Transition E DeltaTime s = some s') : s'.WalkSound = false := by
  rcases timer_cases s.m_LerpTimer with hIn | hOut
  · cases hc : E.Controller with
    | none => rw [Transition_none E DeltaTime s hc hIn] at h; cases h
    | some r =>
      rw [Transition_in_progress E DeltaTime s r hIn hc] at h
      cases h
      rfl
  · rw [Transition_done E DeltaTime s hOut] at h
    cases h
    rw [StickToSurface_eq]
    dsimp only
    rw [IsOnWeb_snd]

/-- The `Ground` handler when the ground changed. -/
theorem Grounded_ground_change (E : Engine) (DeltaTime : ℚ) (s : ABaseSpider)
    (hC : ChangedGround E (CheckWall E (CheckGrounded E s).2).2 = true) :
    Grounded E DeltaTime s =
      some (StopAllSounds
        { SetTransition E (CheckWall E (CheckGrounded E s).2).2.m_DownHitResult
            (CheckWall E (CheckGrounded E s).2).2 with
          m_State := State.Transition, m_Velocity := FVector.zero }) := by
  unfold Grounded
  simp only [hC]
  rfl

/-- The `Ground` handler when the ground did not change and a wall is hit while moving. -/
theorem Grounded_wall (E : Engine) (DeltaTime : ℚ) (s : ABaseSpider)
    (hC : ChangedGround E (CheckWall E (CheckGrounded E s).2).2 = false)
    (hW : (HitWall (CheckWall E (CheckGrounded E s).2).2 &&
      IsMoving (CheckWall E (CheckGrounded E s).2).2) = true) :
    Grounded E DeltaTime s =
      some (StopAllSounds
        { SetTransition E (CheckWall E (CheckGrounded E s).2).2.m_ForwardHitResult
            (CheckWall E (CheckGrounded E s).2).2 with
          m_State := State.Transition, m_Velocity := FVector.zero }) := by
  unfold Grounded
  simp only [hC, hW]
  rfl

/-- The `Ground` handler when neither exit to `Transition` applies and the creature is not
grounded. -/
theorem Grounded_fall (E : Engine) (DeltaTime : ℚ) (s : ABaseSpider)
    (hC : ChangedGround E (CheckWall E (CheckGrounded E s).2).2 = false)
    (hW : (HitWall (CheckWall E (CheckGrounded E s).2).2 &&
      IsMoving (CheckWall E (CheckGrounded E s).2).2) = false)
    (hG : IsGrounded (CheckWall E (CheckGrounded E s).2).2 = false) :
    Grounded E DeltaTime s =
      some (StopAllSounds
        { (CheckWall E (CheckGrounded E s).2).2 with
          m_State := State.Fall, m_Velocity := FVector.zero }) := by
  unfold Grounded
  simp only [hC, hW, hG]
  rfl

/-- C13 as stated fails: a `Fall` frame with a wall 50 ahead leaves the state `Fall` for
`Transition` with the landing cue started and the web-walk cue still playing. -/
theorem C13_exit_with_cue_playing_counterexample :
    ∃ s', Falling WallAheadEngine (1 / 60) C13_Spider = some s' ∧
      s'.m_State ≠ C13_Spider.m_State ∧ s'.LandingSound = true ∧ s'.WebWalkSound = true := by
  have hw : (CheckWall WallAheadEngine { C13_Spider with WalkSound := false }).1 = true := by
    rw [CheckWall_fst]
    norm_num [ForwardTrace, WallAheadEngine, C13_Spider, LevelEngine, WallHit, SpiderForward,
      FVector.add, FVector.smul, FVector.zero, RAYCAST_LENGTH]
  have hF : Falling WallAheadEngine (1 / 60) C13_Spider =
      some { SetTransition WallAheadEngine
          (CheckWall WallAheadEngine { C13_Spider with WalkSound := false }).2.m_ForwardHitResult
          (CheckWall WallAheadEngine { C13_Spider with WalkSound := false }).2 with
        m_State := State.Transition, m_Velocity := FVector.zero, LandingSound := true } := by
    simp only [Falling, hw]
    rfl
  refine ⟨_, hF, ?_, rfl, ?_⟩
  · show State.Transition ≠ State.Fall
    decide
  · show (SetTransition WallAheadEngine _ _).WebWalkSound = true
    rw [SetTransition_eq, CheckWall_snd]
    rfl

/-- C13, amended. The three cues are all stopped when the `Ground` handler leaves `Ground`
for `Transition` or `Fall`, when the `OnWeb` handler leaves `OnWeb`, and when `Jump` changes
the state; when the `Fall` handler leaves `Fall` the walk cue is stopped and the landing cue
is started; when the `Transition` handler leaves `Transition` the walk cue is stopped. -/
theorem C13_state_exit_sounds (E : Engine) (DeltaTime JumpPower : ℚ) (s s' : ABaseSpider) :
    (s.m_State = State.Ground → Grounded E DeltaTime s = some s' →
      s'.m_State = State.Transition ∨ s'.m_State = State.Fall →
      s'.WalkSound = false ∧ s'.WebWalkSound = false ∧ s'.LandingSound = false) ∧
    (s.m_State = State.OnWeb → OnWeb E DeltaTime s = some s' →
      s'.m_State ≠ State.OnWeb →
      s'.WalkSound = false ∧ s'.WebWalkSound = false ∧ s'.LandingSound = false) ∧
    ((Jump E JumpPower s).m_State ≠ s.m_State →
      (Jump E JumpPower s).WalkSound = false ∧ (Jump E JumpPower s).WebWalkSound = false ∧
        (Jump E JumpPower s).LandingSound = false) ∧
    (s.m_State = State.Fall → Falling E DeltaTime s = some s' →
      s'.m_State ≠ State.Fall → s'.WalkSound = false ∧ s'.LandingSound = true) ∧
    (s.m_State = State.Transition → Transition E DeltaTime s = some s' →
      s'.m_State ≠ State.Transition → s'.WalkSound = false) := by
  refine ⟨?_, ?_, ?_, ?_, ?_⟩
  · intro hs h hEnd
    rcases Grounded_sounds E DeltaTime s s' h with h1 | h1 | h1
    · exact h1
    · rcases hEnd with h2 | h2 <;> (rw [h2] at h1; cases h1)
    · rw [hs] at h1
      rcases hEnd with h2 | h2 <;> (rw [h2] at h1; cases h1)
  · intro hs h hEnd
    rcases OnWeb_sounds E DeltaTime s s' h with h1 | h1
    · exact h1
    · rw [hs] at h1; exact absurd h1 hEnd
  · intro hEnd
    cases hg : (CheckGrounded E s).1 with
    | false =>
      exfalso
      apply hEnd
      simp only [Jump, hg]
      rfl
    | true =>
      simp only [Jump, hg]
      exact ⟨rfl, rfl, rfl⟩
  · intro hs h hEnd
    obtain ⟨h1, h2⟩ := Falling_sounds E DeltaTime s s' h
    rcases h2 with h2 | h2
    · exact ⟨h1, h2⟩
    · rw [hs] at h2; exact absurd h2 hEnd
  · intro _ h _
    exact Transition_sounds E DeltaTime s s' h

/-- C13, amended, at a concrete input: a spider in `Ground` with all three cues playing and
no floor below leaves `Ground` for `Fall` with the three cues stopped. -/
theorem C13_state_exit_sounds_witness :
    ∃ s', Grounded EmptyEngine (1 / 60) C13_SpiderGround = some s' ∧
      s'.m_State = State.Fall ∧
      s'.WalkSound = false ∧ s'.WebWalkSound = false ∧ s'.LandingSound = false := by
  have hs2 : (CheckWall EmptyEngine (CheckGrounded EmptyEngine C13_SpiderGround).2).2 =
      { C13_SpiderGround with m_DownHitResult := {}, m_ForwardHitResult := {} } := by
    norm_num [CheckWall, CheckGrounded, HitWall, EmptyEngine, C13_SpiderGround, LevelEngine,
      SpiderUp, SpiderForward, FVector.add, FVector.sub, FVector.smul, RAYCAST_LENGTH]
  have hG := Grounded_fall EmptyEngine (1 / 60) C13_SpiderGround
    (by rw [hs2]; norm_num [ChangedGround, IsGrounded])
    (by rw [hs2]; norm_num [HitWall])
    (by rw [hs2]; norm_num [IsGrounded])
  exact ⟨_, hG, rfl,
    (C13_state_exit_sounds EmptyEngine (1 / 60) 500 C13_SpiderGround _).1 rfl hG (Or.inr rfl)⟩

/-- C15. The exits of the `Ground` handler, with `s2` the state after the two probes: if the
ground changed, or a wall is hit while the velocity carried into the frame is moving, the
frame ends in `Transition` with zero velocity; otherwise, if the creature is not grounded, it
ends in `Fall` with zero velocity; otherwise every frame that returns ends in `Ground` or
`OnWeb`, and it does return in `Ground` when a controller is attached, the ground sample has
an actor and there is no movement input. -/
theorem C15_Grounded_exits (E : Engine) (DeltaTime : ℚ) (s s2 : ABaseSpider)
    (hs2 : s2 = (CheckWall E (CheckGrounded E s).2).2)
    (hState : s.m_State = State.Ground) :
    ((ChangedGround E s2 = true ∨ (HitWall s2 = true ∧ IsMoving s = true)) →
      ∃ s', Grounded E DeltaTime s = some s' ∧ s'.m_State = State.Transition ∧
        s'.m_Velocity = FVector.zero) ∧
    (ChangedGround E s2 = false → ¬ (HitWall s2 = true ∧ IsMoving s = true) →
      IsGrounded s2 = false →
      ∃ s', Grounded E DeltaTime s = some s' ∧ s'.m_State = State.Fall ∧
        s'.m_Velocity = FVector.zero) ∧
    (ChangedGround E s2 = false → ¬ (HitWall s2 = true ∧ IsMoving s = true) →
      IsGrounded s2 = true →
      (∀ s', Grounded E DeltaTime s = some s' →
        s'.m_State = State.Ground ∨ s'.m_State = State.OnWeb) ∧
      (∀ r, E.Controller = some r → s2.m_DownHitResult.Actor ≠ none →
        s.ControlInputVector.Y = 0 →
        ∃ s', Grounded E DeltaTime s = some s' ∧ s'.m_State = State.Ground)) := by
  subst hs2
  have hMov : IsMoving (CheckWall E (CheckGrounded E s).2).2 = IsMoving s :=
    probes_IsMoving E s
  have hNo : ¬ (HitWall (CheckWall E (CheckGrounded E s).2).2 = true ∧ IsMoving s = true) →
      (HitWall (CheckWall E (CheckGrounded E s).2).2 &&
        IsMoving (CheckWall E (CheckGrounded E s).2).2) = false := by
    intro h
    rw [hMov, Bool.eq_false_iff, Ne, Bool.and_eq_true]
    exact h
  refine ⟨?_, ?_, ?_⟩
  · intro h
    cases hC : ChangedGround E (CheckWall E (CheckGrounded E s).2).2 with
    | true => exact ⟨_, Grounded_ground_change E DeltaTime s hC, rfl, rfl⟩
    | false =>
      rcases h with h | h
      · rw [hC] at h; cases h
      · exact ⟨_, Grounded_wall E DeltaTime s hC (by rw [hMov, h.1, h.2]; rfl), rfl, rfl⟩
  · intro hC hW hG
    exact ⟨_, Grounded_fall E DeltaTime s hC (hNo hW) hG, rfl, rfl⟩
  · intro hC hW hG
    constructor
    · intro s' h
      have hW' := hNo hW
      unfold Grounded at h
      simp only [hC, hW', hG] at h
      obtain ⟨s3, h3, h⟩ := Option.bind_eq_some.mp h
      obtain ⟨s4, h4, h⟩ := Option.bind_eq_some.mp h
      obtain ⟨r3, -, e3⟩ := RotateCamera_eq_some h3
      obtain ⟨r4, -, e4⟩ := RotateBody_eq_some h4
      have hs4 : s4.m_State = State.Ground := by
        rw [e4, e3, CheckWall_snd]; exact hState
      split at h
      · split at h
        · split at h
          · cases h
            exact Or.inr rfl
          · rw [GroundedSound_eq_some h, IsOnWeb_snd]
            exact Or.inl hs4
        · rw [GroundedSound_eq_some h]
          exact Or.inl hs4
      · rw [GroundedSound_eq_some h]
        exact Or.inl hs4
    · intro r hCtl hActor hY
      rw [Grounded_walk E DeltaTime s r hCtl hC (hNo hW) hG]
      have hIn : (CheckWall E (CheckGrounded E s).2).2.ControlInputVector =
          s.ControlInputVector := by rw [CheckWall_snd]; rfl
      have hSt : (CheckWall E (CheckGrounded E s).2).2.m_State = State.Ground := by
        rw [CheckWall_snd]; exact hState
      generalize (CheckWall E (CheckGrounded E s).2).2 = s2 at hActor hIn hSt ⊢
      have hv : (HandleMove (SpiderForward E
            { s2 with
              m_Velocity := FVector.zero
              CameraRelativeRotation := ⟨r.Pitch, 0, 0⟩
              SpiderRelativeRotation := ⟨0, r.Yaw, 0⟩ })
            { s2 with
              m_Velocity := FVector.zero
              CameraRelativeRotation := ⟨r.Pitch, 0, 0⟩
              SpiderRelativeRotation := ⟨0, r.Yaw, 0⟩ }).m_Velocity = FVector.zero := by
        show FVector.zero.add ((E.GetForwardVector s2.ColliderRotation ⟨0, r.Yaw, 0⟩).smul
          (s2.ControlInputVector.Y * s2.MovementSpeed)) = _
        rw [FVector.zero_add, hIn, hY, zero_mul, FVector.smul_zero]
      have hNot : IsMoving (HandleMove (SpiderForward E
            { s2 with
              m_Velocity := FVector.zero
              CameraRelativeRotation := ⟨r.Pitch, 0, 0⟩
              SpiderRelativeRotation := ⟨0, r.Yaw, 0⟩ })
            { s2 with
              m_Velocity := FVector.zero
              CameraRelativeRotation := ⟨r.Pitch, 0, 0⟩
              SpiderRelativeRotation := ⟨0, r.Yaw, 0⟩ }) = false := by
        rw [IsMoving, hv, FVector.SquaredLength_zero]
        norm_num [FLT_EPSILON]
      dsimp only
      rw [hNot]
      obtain ⟨s', h1, -, h3⟩ := GroundedSound_some (HandleMove (SpiderForward E
            { s2 with
              m_Velocity := FVector.zero
              CameraRelativeRotation := ⟨r.Pitch, 0, 0⟩
              SpiderRelativeRotation := ⟨0, r.Yaw, 0⟩ })
            { s2 with
              m_Velocity := FVector.zero
              CameraRelativeRotation := ⟨r.Pitch, 0, 0⟩
              SpiderRelativeRotation := ⟨0, r.Yaw, 0⟩ }) hActor
      exact ⟨s', h1, h3.trans hSt⟩

/-- C15 at a concrete input: a spider walking at full speed on the floor with a wall 50 ahead
ends the frame in `Transition` with zero velocity. -/
theorem C15_Grounded_exits_witness :
    ∃ s', Grounded FloorWallEngine (1 / 60) C15_Spider = some s' ∧
      s'.m_State = State.Transition ∧ s'.m_Velocity = FVector.zero := by
  have hs2 : (CheckWall FloorWallEngine (CheckGrounded FloorWallEngine C15_Spider).2).2 =
      { C15_Spider with m_DownHitResult := FloorHit 10, m_ForwardHitResult := WallHit 50 } := by
    norm_num [CheckWall, CheckGrounded, HitWall, FloorWallEngine, C15_Spider, LevelEngine,
      WallHit, SpiderUp, SpiderForward, FVector.add, FVector.sub, FVector.smul, RAYCAST_LENGTH]
  exact (C15_Grounded_exits FloorWallEngine (1 / 60) C15_Spider _ hs2.symm rfl).1
    (Or.inr ⟨by norm_num [HitWall, WallHit, C15_Spider],
      by norm_num [IsMoving, C15_Spider, FVector.SquaredLength, FLT_EPSILON]⟩)

/-- The common end of `Falling` and `Jumping` with a controller attached. -/
theorem StandardFalling_some (E : Engine) (DeltaTime : ℚ) (s : ABaseSpider) (r : FRotator)
    (hCtl : E.Controller = some r) :
    StandardFalling E DeltaTime s =
      some (ApplyDrag DeltaTime (ApplyGravity DeltaTime
        { RotateToWorld E DeltaTime s with
          CameraRelativeRotation := ⟨r.Pitch, 0, 0⟩
          SpiderRelativeRotation := ⟨0, r.Yaw, 0⟩ })) := by
  unfold StandardFalling
  simp only [RotateCamera, RotateBody, hCtl]
  rfl

/-- C16. A `Jumping` frame takes exactly `DeltaTime` from the immunity timer, ends in `Fall`
exactly when the decreased timer is negative and stays in `Jumping` otherwise, and leaves
`m_DownHitResult` and `m_ForwardHitResult` as they were whatever the ray casts would return.
The frame returns whenever the timer expires or a controller is attached. -/
theorem C16_Jumping_immunity (E : Engine) (DeltaTime : ℚ) (s : ABaseSpider)
    (hState : s.m_State = State.Jumping)
    (hRun : s.m_JumpImmuneTimer - DeltaTime < 0 ∨ E.Controller ≠ none) :
    ∃ s', Jumping E DeltaTime s = some s' ∧
      s'.m_JumpImmuneTimer = s.m_JumpImmuneTimer - DeltaTime ∧
      (s'.m_State = State.Fall ↔ s.m_JumpImmuneTimer - DeltaTime < 0) ∧
      (¬ s.m_JumpImmuneTimer - DeltaTime < 0 → s'.m_State = State.Jumping) ∧
      s'.m_DownHitResult = s.m_DownHitResult ∧
      s'.m_ForwardHitResult = s.m_ForwardHitResult := by
  by_cases hT : s.m_JumpImmuneTimer - DeltaTime < 0
  · have hJ : Jumping E DeltaTime s =
        some { s with
          m_JumpImmuneTimer := s.m_JumpImmuneTimer - DeltaTime, m_State := State.Fall } := by
      unfold Jumping
      dsimp only
      rw [if_pos hT]
    exact ⟨_, hJ, rfl, ⟨fun _ => hT, fun _ => rfl⟩, fun h => absurd hT h, rfl, rfl⟩
  · have hC : E.Controller ≠ none := by
      rcases hRun with h | h
      · exact absurd h hT
      · exact h
    obtain ⟨r, hr⟩ := Option.ne_none_iff_exists'.mp hC
    obtain ⟨s2, hS⟩ : ∃ s2, StandardFalling E DeltaTime
        { s with m_JumpImmuneTimer := s.m_JumpImmuneTimer - DeltaTime } = some s2 :=
      ⟨_, StandardFalling_some E _ _ r hr⟩
    have hJ : Jumping E DeltaTime s = some { s2 with m_OldState := State.Jumping } := by
      unfold Jumping
      dsimp only
      rw [if_neg hT, hS]
      rfl
    obtain ⟨e1, e2, e3, e4, -⟩ := StandardFalling_eq_some hS
    refine ⟨_, hJ, e2, ?_, fun _ => e1.trans hState, e3, e4⟩
    constructor
    · intro h
      have h' : s2.m_State = State.Fall := h
      rw [e1] at h'
      have h'' : s.m_State = State.Fall := h'
      rw [hState] at h''
      cases h''
    · intro h; exact absurd h hT

/-- C16 at a concrete input: standing over the floor with the timer at 1/10, a frame of 1/60
leaves the timer at 1/12 and the state `Jumping`; a frame of 1/5 expires it into `Fall`. -/
theorem C16_Jumping_immunity_witness :
    (∃ s', Jumping FloorEngine (1 / 60) JumpingSpider = some s' ∧
      s'.m_JumpImmuneTimer = 1 / 12 ∧ s'.m_State = State.Jumping) ∧
    (∃ s', Jumping FloorEngine (1 / 5) JumpingSpider = some s' ∧ s'.m_State = State.Fall) := by
  constructor
  · obtain ⟨s', h1, h2, -, h4, -, -⟩ := C16_Jumping_immunity FloorEngine (1 / 60) JumpingSpider rfl
      (Or.inr (by simp [FloorEngine, LevelEngine]))
    refine ⟨s', h1, ?_, h4 (by norm_num [JumpingSpider])⟩
    rw [h2]
    norm_num [JumpingSpider]
  · obtain ⟨s', h1, -, h3, -, -, -⟩ := C16_Jumping_immunity FloorEngine (1 / 5) JumpingSpider rfl
      (Or.inl (by norm_num [JumpingSpider]))
    exact ⟨s', h1, h3.mpr (by norm_num [JumpingSpider])⟩

/-- `ApplyGravity` followed by `ApplyDrag` is the airborne integration of the
specification. -/
theorem ApplyDrag_ApplyGravity_velocity (DeltaTime : ℚ) (s : ABaseSpider) :
    (ApplyDrag DeltaTime (ApplyGravity DeltaTime s)).m_Velocity =
      SpecAirborneVelocity s.m_Velocity s.Gravity s.Drag DeltaTime := by
  unfold ApplyDrag ApplyGravity SpecAirborneVelocity
  ext <;> simp only [FVector.sub, FVector.smul] <;> ring

/-- The `Fall` handler when no wall is ahead and the sweep finds nothing. -/
theorem Falling_airborne (E : Engine) (DeltaTime : ℚ) (s : ABaseSpider)
    (hWall : (CheckWall E s).1 = false)
    (hSweep :
      (E.LineTrace s.ColliderLocation
        (s.ColliderLocation.add (s.m_Velocity.smul DeltaTime))).IsValidBlockingHit = false) :
    Falling E DeltaTime s =
      (StandardFalling E DeltaTime (CheckWall E { s with WalkSound := false }).2).bind
        fun s3 => some { (ConsumeMovementInputVector s3).2 with m_OldState := State.Fall } := by
  have hw1 : (CheckWall E { s with WalkSound := false }).1 = false := by
    rw [CheckWall_fst_WalkSound]; exact hWall
  have hl := CheckWall_snd_ColliderLocation E { s with WalkSound := false }
  have hv := CheckWall_snd_m_Velocity E { s with WalkSound := false }
  dsimp only at hl hv
  simp only [Falling, hw1, CollisionPrediction, hl, hv, hSweep]
  rfl

/-- C17. Airborne integration: a `Fall` frame with no wall ahead and no sweep hit, and a
`Jumping` frame whose immunity timer has not expired, both leave the velocity
`(v - (0, 0, Gravity * DeltaTime)) * (1 - Drag * DeltaTime)`, where `v` is the velocity before
the frame (a controller being attached). -/
theorem C17_airborne_integration (E : Engine) (DeltaTime : ℚ) (s : ABaseSpider) (r : FRotator)
    (hCtl : E.Controller = some r) :
    ((CheckWall E s).1 = false →
      (E.LineTrace s.ColliderLocation
        (s.ColliderLocation.add (s.m_Velocity.smul DeltaTime))).IsValidBlockingHit = false →
      ∃ s', Falling E DeltaTime s = some s' ∧
        s'.m_Velocity = SpecAirborneVelocity s.m_Velocity s.Gravity s.Drag DeltaTime) ∧
    (¬ s.m_JumpImmuneTimer - DeltaTime < 0 →
      ∃ s', Jumping E DeltaTime s = some s' ∧
        s'.m_Velocity = SpecAirborneVelocity s.m_Velocity s.Gravity s.Drag DeltaTime) := by
  constructor
  · intro hWall hSweep
    obtain ⟨s3, hS⟩ : ∃ s3, StandardFalling E DeltaTime
        (CheckWall E { s with WalkSound := false }).2 = some s3 :=
      ⟨_, StandardFalling_some E _ _ r hCtl⟩
    refine ⟨_, by rw [Falling_airborne E DeltaTime s hWall hSweep, hS]; rfl, ?_⟩
    show s3.m_Velocity = _
    rw [(StandardFalling_eq_some hS).2.2.2.2, ApplyDrag_ApplyGravity_velocity, CheckWall_snd]
  · intro hT
    obtain ⟨s2, hS⟩ : ∃ s2, StandardFalling E DeltaTime
        { s with m_JumpImmuneTimer := s.m_JumpImmuneTimer - DeltaTime } = some s2 :=
      ⟨_, StandardFalling_some E _ _ r hCtl⟩
    have hJ : Jumping E DeltaTime s = some { s2 with m_OldState := State.Jumping } := by
      unfold Jumping
      dsimp only
      rw [if_neg hT, hS]
      rfl
    refine ⟨_, hJ, ?_⟩
    show s2.m_Velocity = _
    rw [(StandardFalling_eq_some hS).2.2.2.2, ApplyDrag_ApplyGravity_velocity]

/-- C17 at a concrete input: falling with velocity `(100, 0, -300)`, `Gravity = 2000`,
`Drag = 93/100` and `DeltaTime = 1/100` gives `(9907/100, 0, -39628/125)`; the jump velocity
`(0, 0, 500)` becomes `(0, 0, 59442/125)`. -/
theorem C17_airborne_integration_witness :
    (∃ s', Falling AirEngine (1 / 100) C17_Spider = some s' ∧
      s'.m_Velocity = ⟨9907 / 100, 0, -39628 / 125⟩) ∧
    (∃ s', Jumping FloorEngine (1 / 100) JumpingSpider = some s' ∧
      s'.m_Velocity = ⟨0, 0, 59442 / 125⟩) := by
  constructor
  · obtain ⟨s', h1, h2⟩ := (C17_airborne_integration AirEngine (1 / 100) C17_Spider {} rfl).1
      (by
        rw [CheckWall_fst]
        norm_num [ForwardTrace, AirEngine, LevelEngine, C17_Spider, SpiderForward,
          FVector.add, FVector.smul, RAYCAST_LENGTH])
      (by
        norm_num [AirEngine, LevelEngine, C17_Spider, FVector.add, FVector.smul])
    refine ⟨s', h1, ?_⟩
    rw [h2]
    norm_num [SpecAirborneVelocity, C17_Spider, FVector.sub, FVector.smul]
  · obtain ⟨s', h1, h2⟩ := (C17_airborne_integration FloorEngine (1 / 100) JumpingSpider {} rfl).2
      (by norm_num [JumpingSpider])
    refine ⟨s', h1, ?_⟩
    rw [h2]
    norm_num [SpecAirborneVelocity, JumpingSpider, FVector.sub, FVector.smul]

theorem FVector.sub_swap (a b : FVector) : a.sub b = (b.sub a).smul (-1) := by
  ext <;> simp [FVector.sub, FVector.smul]

theorem FVector.SquaredLength_smul_neg_one (v : FVector) :
    (v.smul (-1)).SquaredLength = v.SquaredLength := by
  simp only [FVector.SquaredLength, FVector.smul]
  ring

theorem FVector.smul_smul (v : FVector) (a b : ℚ) : (v.smul a).smul b = v.smul (a * b) := by
  ext <;> simp only [FVector.smul] <;> ring

theorem FVector.Dot_smul (a b : FVector) (k : ℚ) : a.Dot (b.smul k) = a.Dot b * k := by
  simp only [FVector.Dot, FVector.smul]
  ring

theorem FVector.SquaredLength_smul (v : FVector) (k : ℚ) :
    (v.smul k).SquaredLength = k * k * v.SquaredLength := by
  simp only [FVector.SquaredLength, FVector.smul]
  ring

theorem Normalize_smul_neg_one (E : Engine) (v : FVector) :
    Normalize E (v.smul (-1)) = (Normalize E v).smul (-1) := by
  unfold Normalize
  rw [FVector.SquaredLength_smul_neg_one]
  split
  · rw [FVector.smul_smul, FVector.smul_smul, mul_comm]
  · rfl

theorem Sign_neg (x : ℚ) : Sign (-x) = -Sign x := by
  unfold Sign
  rcases lt_trichotomy x 0 with h | h | h
  · rw [if_pos (by linarith), if_neg (by linarith), if_pos h]
    norm_num
  · subst h
    norm_num
  · rw [if_neg (by linarith), if_pos (by linarith), if_pos h]

theorem mul_Sign_nonneg (x : ℚ) : 0 ≤ x * Sign x := by
  unfold Sign
  rcases lt_trichotomy x 0 with h | h | h
  · rw [if_neg (by linarith), if_pos h]
    linarith
  · subst h
    norm_num
  · rw [if_pos h]
    linarith

/-- C18, amended. In an `OnWeb` frame that stays on the web (grounded, no wall hit while
moving, controller attached) the velocity after the handler is `d`, the result of `Normalize`
on the vector from the start to the end of the line, times the sign `s` of `forward · d`,
times `inputY * MovementSpeed`.  The axis `s * d` has a non-negative dot product with the
forward vector and swapping the two end points leaves the velocity as it is.  When the squared
distance of the end points exceeds the tolerance of `Normalize` (`10⁻⁸`), `d` is the vector
scaled by `InvSqrt` of its squared length, of length one when `InvSqrt` is exact there; when
it does not, `d` is the vector itself, unscaled. -/
theorem C18_OnWeb_axis (E : Engine) (DeltaTime : ℚ) (s : ABaseSpider) (r : FRotator)
    (hCtl : E.Controller = some r)
    (hGrounded : (CheckGrounded E s).1 = true)
    (hNoWall : ((CheckWall E s).1 && IsMoving s) = false) :
    ∃ s', OnWeb E DeltaTime s = some s' ∧
      s'.m_Velocity =
        ((Normalize E (s.m_EndLinePoint.sub s.m_StartLinePoint)).smul
          (Sign ((E.GetForwardVector s.ColliderRotation ⟨0, r.Yaw, 0⟩).Dot
            (Normalize E (s.m_EndLinePoint.sub s.m_StartLinePoint))))).smul
          (s.ControlInputVector.Y * s.MovementSpeed) ∧
      0 ≤ (E.GetForwardVector s.ColliderRotation ⟨0, r.Yaw, 0⟩).Dot
        ((Normalize E (s.m_EndLinePoint.sub s.m_StartLinePoint)).smul
          (Sign ((E.GetForwardVector s.ColliderRotation ⟨0, r.Yaw, 0⟩).Dot
            (Normalize E (s.m_EndLinePoint.sub s.m_StartLinePoint))))) ∧
      (∃ s'', OnWeb E DeltaTime
          { s with m_StartLinePoint := s.m_EndLinePoint, m_EndLinePoint := s.m_StartLinePoint }
            = some s'' ∧ s''.m_Velocity = s'.m_Velocity) ∧
      (UE_SMALL_NUMBER < (s.m_EndLinePoint.sub s.m_StartLinePoint).SquaredLength →
        Normalize E (s.m_EndLinePoint.sub s.m_StartLinePoint) =
            (s.m_EndLinePoint.sub s.m_StartLinePoint).smul
              (E.InvSqrt (s.m_EndLinePoint.sub s.m_StartLinePoint).SquaredLength) ∧
          (E.InvSqrt (s.m_EndLinePoint.sub s.m_StartLinePoint).SquaredLength *
              E.InvSqrt (s.m_EndLinePoint.sub s.m_StartLinePoint).SquaredLength *
              (s.m_EndLinePoint.sub s.m_StartLinePoint).SquaredLength = 1 →
            (Normalize E (s.m_EndLinePoint.sub s.m_StartLinePoint)).SquaredLength = 1)) ∧
      ((s.m_EndLinePoint.sub s.m_StartLinePoint).SquaredLength ≤ UE_SMALL_NUMBER →
        Normalize E (s.m_EndLinePoint.sub s.m_StartLinePoint) =
          s.m_EndLinePoint.sub s.m_StartLinePoint) := by
  obtain ⟨s', h1, h2⟩ := OnWeb_walk_velocity E DeltaTime s r hCtl hGrounded hNoWall
  have hNoWall' : ((CheckWall E
      { s with m_StartLinePoint := s.m_EndLinePoint, m_EndLinePoint := s.m_StartLinePoint }).1 &&
      IsMoving
        { s with m_StartLinePoint := s.m_EndLinePoint, m_EndLinePoint := s.m_StartLinePoint })
        = false := by
    rw [CheckWall_fst] at hNoWall ⊢
    exact hNoWall
  obtain ⟨s'', h3, h4⟩ := OnWeb_walk_velocity E DeltaTime
    { s with m_StartLinePoint := s.m_EndLinePoint, m_EndLinePoint := s.m_StartLinePoint } r hCtl
    hGrounded hNoWall'
  refine ⟨s', h1, h2, ?_, ⟨s'', h3, ?_⟩, ?_, Normalize_short E _⟩
  · rw [FVector.Dot_smul]
    exact mul_Sign_nonneg _
  · rw [h4, h2]
    show ((Normalize E (s.m_StartLinePoint.sub s.m_EndLinePoint)).smul
        (Sign ((E.GetForwardVector s.ColliderRotation ⟨0, r.Yaw, 0⟩).Dot
          (Normalize E (s.m_StartLinePoint.sub s.m_EndLinePoint))))).smul
        (s.ControlInputVector.Y * s.MovementSpeed) = _
    rw [FVector.sub_swap s.m_StartLinePoint s.m_EndLinePoint, Normalize_smul_neg_one,
      FVector.Dot_smul, mul_neg_one, Sign_neg, FVector.smul_smul _ (-1), neg_one_mul, neg_neg]
  · intro hLong
    have hN : Normalize E (s.m_EndLinePoint.sub s.m_StartLinePoint) =
        (s.m_EndLinePoint.sub s.m_StartLinePoint).smul
          (E.InvSqrt (s.m_EndLinePoint.sub s.m_StartLinePoint).SquaredLength) := by
      unfold Normalize
      rw [if_pos hLong]
    refine ⟨hN, ?_⟩
    intro hInv
    rw [hN, FVector.SquaredLength_smul]
    exact hInv

/-- C18, amended, at a concrete input: the line runs from `(5,0,0)` to `(4,0,0)`, against the
forward vector `(1,0,0)`; the axis is flipped to `(1,0,0)` and input `Y = 1` gives the
velocity `(1000, 0, 0)`, also with the two end points swapped. -/
theorem C18_OnWeb_axis_witness :
    ∃ s', OnWeb FloorEngine (1 / 60) C18_Spider = some s' ∧
      s'.m_Velocity = ⟨1000, 0, 0⟩ ∧
      ∃ s'', OnWeb FloorEngine (1 / 60)
          { C18_Spider with
            m_StartLinePoint := C18_Spider.m_EndLinePoint
            m_EndLinePoint := C18_Spider.m_StartLinePoint } = some s'' ∧
        s''.m_Velocity = ⟨1000, 0, 0⟩ := by
  obtain ⟨s', h1, h2, -, ⟨s'', h3, h4⟩, -⟩ := C18_OnWeb_axis FloorEngine (1 / 60) C18_Spider {}
    rfl
    (by
      rw [CheckGrounded_fst]
      norm_num [FloorEngine, LevelEngine, FloorHit, C18_Spider, SpiderUp, FVector.sub,
        FVector.smul, RAYCAST_LENGTH])
    (by
      rw [CheckWall_fst]
      norm_num [ForwardTrace, FloorEngine, LevelEngine, C18_Spider, SpiderForward, FVector.add,
        FVector.smul, RAYCAST_LENGTH])
  have hd : C18_Spider.m_EndLinePoint.sub C18_Spider.m_StartLinePoint = ⟨-1, 0, 0⟩ := by
    norm_num [C18_Spider, FVector.sub]
  have hn : Normalize FloorEngine ⟨-1, 0, 0⟩ = ⟨-1, 0, 0⟩ :=
    Normalize_unit FloorEngine _ (by simp [FloorEngine, LevelEngine, Rat.sqrt])
      (by norm_num [FVector.SquaredLength])
  have hv : s'.m_Velocity = ⟨1000, 0, 0⟩ := by
    rw [h2, hd, hn]
    norm_num [C18_Spider, FloorEngine, LevelEngine, FVector.smul, FVector.Dot, Sign]
  exact ⟨s', h1, hv, s'', h3, h4.trans hv⟩

/-- `CalcLerpRatio` takes the fixed rate whenever the angle is below the threshold. -/
theorem CalcLerpRatio_small (E : Engine) (s : ABaseSpider) (hA : LerpAngle E s < 90) :
    (CalcLerpRatio E s).m_LerpRatio = 1 / s.WallInterpolateTime := by
  unfold CalcLerpRatio
  dsimp only
  rw [if_pos hA]

theorem SetTransition_m_StickRotation (E : Engine) (HitResult : FHitResult) (s : ABaseSpider) :
    (SetTransition E HitResult s).m_StickRotation =
      E.FindBetweenVectors (SpiderUp E s) HitResult.ImpactNormal := by
  rw [SetTransition_eq]

/-- Cauchy–Schwarz for `FVector`: the square of the dot product is at most the product of the
squared lengths. -/
theorem FVector.Dot_sq_le (a b : FVector) :
    a.Dot b * a.Dot b ≤ a.SquaredLength * b.SquaredLength := by
  have h : a.SquaredLength * b.SquaredLength - a.Dot b * a.Dot b =
      (a.X * b.Y - a.Y * b.X) ^ 2 + (a.Y * b.Z - a.Z * b.Y) ^ 2 +
        (a.Z * b.X - a.X * b.Z) ^ 2 := by
    simp only [FVector.SquaredLength, FVector.Dot]
    ring
  have h0 : 0 ≤ a.SquaredLength * b.SquaredLength - a.Dot b * a.Dot b := by
    rw [h]
    positivity
  linarith

/-- The dot product of a unit vector and a vector of length at most one lies in `[-1, 1]`. -/
theorem FVector.Dot_mem_unit (a b : FVector) (ha : a.SquaredLength = 1)
    (hb : b.SquaredLength ≤ 1) : -1 ≤ a.Dot b ∧ a.Dot b ≤ 1 := by
  have h := FVector.Dot_sq_le a b
  rw [ha, one_mul] at h
  have h1 : a.Dot b * a.Dot b ≤ 1 := le_trans h hb
  constructor <;> nlinarith

/-- C20. The slow-down branch of `CalcLerpRatio` is out of reach for geometric inputs: for a
unit up-vector and a `m_ForwardHitResult` normal of length at most one the dot product lies in
`[-1, 1]`, the angle returned by `FMath::Acos` (radians in `[0, π]`, and `π < 22/7`) is below
the threshold 90, and `CalcLerpRatio` sets the rate to `1 / WallInterpolateTime` whatever
`LargeLerpCompensation` is. -/
theorem C20_slow_down_unreachable (E : Engine) (s : ABaseSpider) (Compensation : ℚ)
    (hAcos : ∀ x, -1 ≤ x → x ≤ 1 → 0 ≤ E.Acos x ∧ E.Acos x ≤ 22 / 7)
    (hUp : (SpiderUp E s).SquaredLength = 1)
    (hNormal : s.m_ForwardHitResult.ImpactNormal.SquaredLength ≤ 1) :
    (-1 ≤ (SpiderUp E s).Dot s.m_ForwardHitResult.ImpactNormal ∧
      (SpiderUp E s).Dot s.m_ForwardHitResult.ImpactNormal ≤ 1) ∧
    (0 ≤ LerpAngle E s ∧ LerpAngle E s ≤ 22 / 7 ∧ LerpAngle E s < 90) ∧
    (CalcLerpRatio E s).m_LerpRatio = 1 / s.WallInterpolateTime ∧
    (CalcLerpRatio E { s with LargeLerpCompensation := Compensation }).m_LerpRatio =
      (CalcLerpRatio E s).m_LerpRatio := by
  have hDot := FVector.Dot_mem_unit _ _ hUp hNormal
  have hA : 0 ≤ LerpAngle E s ∧ LerpAngle E s ≤ 22 / 7 := hAcos _ hDot.1 hDot.2
  have hLt : LerpAngle E s < 90 := lt_of_le_of_lt hA.2 (by norm_num)
  have hLt' : LerpAngle E { s with LargeLerpCompensation := Compensation } < 90 := hLt
  refine ⟨hDot, ⟨hA.1, hA.2, hLt⟩, CalcLerpRatio_small E s hLt, ?_⟩
  rw [CalcLerpRatio_small E s hLt, CalcLerpRatio_small E _ hLt']

/-- C20 at a concrete input: up `(0,0,1)` against the wall normal `(-1,0,0)` gives the rate
`10/7 = 1 / WallInterpolateTime`, also with `LargeLerpCompensation` set to 100. -/
theorem C20_slow_down_unreachable_witness :
    (CalcLerpRatio FloorEngine C20_Spider).m_LerpRatio = 10 / 7 ∧
      (CalcLerpRatio FloorEngine
        { C20_Spider with LargeLerpCompensation := 100 }).m_LerpRatio = 10 / 7 := by
  obtain ⟨-, -, h3, h4⟩ := C20_slow_down_unreachable FloorEngine C20_Spider 100
    (by
      intro x _ _
      show 0 ≤ (if x ≤ 0 then (2 : ℚ) else if x < 1 then 1 else 0) ∧
        (if x ≤ 0 then (2 : ℚ) else if x < 1 then 1 else 0) ≤ 22 / 7
      split_ifs <;> norm_num)
    (by norm_num [SpiderUp, FloorEngine, LevelEngine, FVector.SquaredLength])
    (by norm_num [C20_Spider, WallHit, FVector.SquaredLength])
  have hW : (1 : ℚ) / C20_Spider.WallInterpolateTime = 10 / 7 := by
    norm_num [C20_Spider]
  exact ⟨h3.trans hW, h4.trans (h3.trans hW)⟩

theorem IsOnWeb_snd_m_JumpImmuneTimer (E : Engine) (s : ABaseSpider) :
    (IsOnWeb E s).2.m_JumpImmuneTimer = s.m_JumpImmuneTimer := by
  rw [IsOnWeb_snd]

theorem StickToSurface_m_JumpImmuneTimer (E : Engine) (s : ABaseSpider) :
    (StickToSurface E s).m_JumpImmuneTimer = s.m_JumpImmuneTimer := rfl

theorem HandleMove_m_JumpImmuneTimer (Direction : FVector) (s : ABaseSpider) :
    (HandleMove Direction s).m_JumpImmuneTimer = s.m_JumpImmuneTimer := rfl

theorem GroundedSound_m_JumpImmuneTimer {s s' : ABaseSpider} (h : GroundedSound s = some s') :
    s'.m_JumpImmuneTimer = s.m_JumpImmuneTimer := by
  rw [GroundedSound_eq_some h]

theorem Grounded_timer (E : Engine) (DeltaTime : ℚ) (s s' : ABaseSpider)
    (h : Grounded E DeltaTime s = some s') :
    s'.m_JumpImmuneTimer = s.m_JumpImmuneTimer := by
  have h2 : (CheckWall E (CheckGrounded E s).2).2.m_JumpImmuneTimer = s.m_JumpImmuneTimer := by
    rw [CheckWall_snd]; rfl
  unfold Grounded at h
  dsimp only at h
  split at h
  · cases h
    rw [StopAllSounds]
    dsimp only
    rw [SetTransition_eq]
    exact h2
  · split at h
    · cases h
      rw [StopAllSounds]
      dsimp only
      rw [SetTransition_eq]
      exact h2
    · split at h
      · cases h
        exact h2
      · obtain ⟨s3, h3, h⟩ := Option.bind_eq_some.mp h
        obtain ⟨s4, h4, h⟩ := Option.bind_eq_some.mp h
        obtain ⟨r3, -, e3⟩ := RotateCamera_eq_some h3
        obtain ⟨r4, -, e4⟩ := RotateBody_eq_some h4
        have hs4 : s4.m_JumpImmuneTimer = s.m_JumpImmuneTimer := by
          rw [e4, e3]; exact h2
        split at h
        · split at h
          · split at h
            · cases h
              exact (IsOnWeb_snd_m_JumpImmuneTimer E _).trans
                ((StickToSurface_m_JumpImmuneTimer E _).trans
                  ((HandleMove_m_JumpImmuneTimer _ _).trans hs4))
            · exact (GroundedSound_m_JumpImmuneTimer h).trans
                ((IsOnWeb_snd_m_JumpImmuneTimer E _).trans
                  ((StickToSurface_m_JumpImmuneTimer E _).trans
                    ((HandleMove_m_JumpImmuneTimer _ _).trans hs4)))
          · exact (GroundedSound_m_JumpImmuneTimer h).trans
              ((StickToSurface_m_JumpImmuneTimer E _).trans
                ((HandleMove_m_JumpImmuneTimer _ _).trans hs4))
        · exact (GroundedSound_m_JumpImmuneTimer h).trans
            ((HandleMove_m_JumpImmuneTimer _ _).trans hs4)

theorem OnWeb_timer (E : Engine) (DeltaTime : ℚ) (s s' : ABaseSpider)
    (h : OnWeb E DeltaTime s = some s') :
    s'.m_JumpImmuneTimer = s.m_JumpImmuneTimer := by
  have h2 : (CheckWall E (CheckGrounded E s).2).2.m_JumpImmuneTimer = s.m_JumpImmuneTimer := by
    rw [CheckWall_snd]; rfl
  unfold OnWeb at h
  dsimp only at h
  split at h
  · cases h
    exact h2
  · split at h
    · cases h
      rw [StopAllSounds]
      dsimp only
      rw [SetTransition_eq]
      exact h2
    · obtain ⟨s3, h3, h⟩ := Option.bind_eq_some.mp h
      obtain ⟨s4, h4, h⟩ := Option.bind_eq_some.mp h
      obtain ⟨r3, -, e3⟩ := RotateCamera_eq_some h3
      obtain ⟨r4, -, e4⟩ := RotateBody_eq_some h4
      have hs4 : s4.m_JumpImmuneTimer = s.m_JumpImmuneTimer := by
        rw [e4, e3]; exact h2
      cases h
      exact hs4

theorem Falling_timer (E : Engine) (DeltaTime : ℚ) (s s' : ABaseSpider)
    (h : Falling E DeltaTime s = some s') :
    s'.m_JumpImmuneTimer = s.m_JumpImmuneTimer := by
  have hw : (CheckWall E { s with WalkSound := false }).2.m_JumpImmuneTimer =
      s.m_JumpImmuneTimer := by
    rw [CheckWall_snd]
  have hc : (CollisionPrediction E DeltaTime
      (CheckWall E { s with WalkSound := false }).2).2.m_JumpImmuneTimer =
        s.m_JumpImmuneTimer := by
    rw [CollisionPrediction_snd]; exact hw
  unfold Falling at h
  dsimp only at h
  split at h
  · cases h
    show (SetTransition E _ _).m_JumpImmuneTimer = _
    rw [SetTransition_eq]; exact hw
  · split at h
    · cases h
      dsimp only
      split
      · show (SetTransition E _ _).m_JumpImmuneTimer = _
        rw [SetTransition_eq]; exact hc
      · show (StickToSurface E _).m_JumpImmuneTimer = _
        rw [StickToSurface_eq]; exact hc
    · obtain ⟨s3, h3, h⟩ := Option.bind_eq_some.mp h
      cases h
      show s3.m_JumpImmuneTimer = _
      rw [(StandardFalling_eq_some h3).2.1]; exact hc

theorem Transition_timer (E : Engine) (DeltaTime : ℚ) (s s' : ABaseSpider)
    (h : Transition E DeltaTime s = some s') :
    s'.m_JumpImmuneTimer = s.m_JumpImmuneTimer := by
  rcases timer_cases s.m_LerpTimer with hIn | hOut
  · cases hc : E.Controller with
    | none => rw [Transition_none E DeltaTime s hc hIn] at h; cases h
    | some r =>
      rw [Transition_in_progress E DeltaTime s r hIn hc] at h
      cases h
      rfl
  · rw [Transition_done E DeltaTime s hOut] at h
    cases h
    rw [StickToSurface_eq]
    dsimp only
    rw [IsOnWeb_snd]

/-- The state after a `Transition` frame is `Transition`, `OnWeb` or `Ground` when it started
in `Transition`. -/
theorem Transition_state (E : Engine) (DeltaTime : ℚ) (s s' : ABaseSpider)
    (h : Transition E DeltaTime s = some s') :
    s'.m_State = s.m_State ∨ s'.m_State = State.OnWeb ∨ s'.m_State = State.Ground := by
  rcases timer_cases s.m_LerpTimer with hIn | hOut
  · cases hc : E.Controller with
    | none => rw [Transition_none E DeltaTime s hc hIn] at h; cases h
    | some r =>
      rw [Transition_in_progress E DeltaTime s r hIn hc] at h
      cases h
      exact Or.inl rfl
  · rw [Transition_done E DeltaTime s hOut] at h
    cases h
    refine Or.inr ?_
    show (if _ then State.OnWeb else State.Ground) = State.OnWeb ∨
      (if _ then State.OnWeb else State.Ground) = State.Ground
    split
    · exact Or.inl rfl
    · exact Or.inr rfl

/-- A `Jumping` frame ends in `Fall` with a negative immunity timer, or in the state it
started in. -/
theorem Jumping_state (E : Engine) (DeltaTime : ℚ) (s s' : ABaseSpider)
    (h : Jumping E DeltaTime s = some s') :
    (s'.m_State = State.Fall ∧ s'.m_JumpImmuneTimer < 0) ∨ s'.m_State = s.m_State := by
  unfold Jumping at h
  dsimp only at h
  split at h
  · next hT =>
    cases h
    exact Or.inl ⟨rfl, hT⟩
  · obtain ⟨s2, h2, h⟩ := Option.bind_eq_some.mp h
    cases h
    exact Or.inr (StandardFalling_eq_some h2).1

/-- The handler dispatched by `Tick` for the current state. -/
theorem Tick_eq_some {E : Engine} {DeltaTime : ℚ} {s s' : ABaseSpider}
    (h : Tick E DeltaTime s = some s') :
    ∃ s1,
      (match s.m_State with
        | State.Ground => Grounded E DeltaTime s
        | State.Transition => Transition E DeltaTime s
        | State.Fall => Falling E DeltaTime s
        | State.OnWeb => OnWeb E DeltaTime s
        | State.Jumping => Jumping E DeltaTime s) = some s1 ∧
      s' = { s1 with
        ControlInputVector := FVector.zero
        ColliderLocation := E.SweepMove s1.ColliderLocation (s1.m_Velocity.smul DeltaTime) } := by
  unfold Tick at h
  obtain ⟨s1, h1, h2⟩ := Option.bind_eq_some.mp h
  exact ⟨s1, h1, (Option.some.inj h2).symm⟩

/-- The invariant of C21 is kept by `Tick`. -/
theorem Tick_timer_invariant (E : Engine) (DeltaTime : ℚ) (s s' : ABaseSpider)
    (h : Tick E DeltaTime s = some s')
    (hInv : s.m_State ≠ State.Jumping → s.m_JumpImmuneTimer ≤ 0) :
    s'.m_State ≠ State.Jumping → s'.m_JumpImmuneTimer ≤ 0 := by
  obtain ⟨s1, h1, rfl⟩ := Tick_eq_some h
  show s1.m_State ≠ State.Jumping → s1.m_JumpImmuneTimer ≤ 0
  intro hNot
  cases hs : s.m_State with
  | Ground =>
    rw [hs] at h1
    rw [Grounded_timer E DeltaTime s s1 h1]
    exact hInv (by rw [hs]; decide)
  | Transition =>
    rw [hs] at h1
    rw [Transition_timer E DeltaTime s s1 h1]
    exact hInv (by rw [hs]; decide)
  | Fall =>
    rw [hs] at h1
    rw [Falling_timer E DeltaTime s s1 h1]
    exact hInv (by rw [hs]; decide)
  | OnWeb =>
    rw [hs] at h1
    rw [OnWeb_timer E DeltaTime s s1 h1]
    exact hInv (by rw [hs]; decide)
  | Jumping =>
    rw [hs] at h1
    rcases Jumping_state E DeltaTime s s1 h1 with h2 | h2
    · exact le_of_lt h2.2
    · rw [hs] at h2; exact absurd h2 hNot

/-- The invariant of C21 is kept by `Jump`. -/
theorem Jump_timer_invariant (E : Engine) (JumpPower : ℚ) (s : ABaseSpider)
    (hInv : s.m_State ≠ State.Jumping → s.m_JumpImmuneTimer ≤ 0) :
    (Jump E JumpPower s).m_State ≠ State.Jumping → (Jump E JumpPower s).m_JumpImmuneTimer ≤ 0 := by
  cases hg : (CheckGrounded E s).1 with
  | false =>
    have hJ : Jump E JumpPower s = (CheckGrounded E s).2 := by
      simp only [Jump, hg]
      rfl
    rw [hJ]
    exact hInv
  | true =>
    intro hNot
    exfalso
    apply hNot
    simp only [Jump, hg]
    rfl

/-- C21. Starting from a controller whose jump-immunity timer is 0 (as for the controller as
constructed, in state `Fall`), after any sequence of `Tick` and `Jump` calls against any
engines that runs through, the timer is at most 0 whenever the movement state is not
`Jumping`; that is, `IsJumping()` being true implies the state `Jumping`. -/
theorem C21_IsJumping_implies_Jumping (Calls : List Call) (s0 s' : ABaseSpider)
    (hTimer : s0.m_JumpImmuneTimer = 0)
    (hRun : RunCalls Calls s0 = some s') :
    (s'.m_State ≠ State.Jumping → s'.m_JumpImmuneTimer ≤ 0) ∧
      (IsJumping s' = true → s'.m_State = State.Jumping) := by
  have hStep : ∀ (Calls : List Call) (s s' : ABaseSpider),
      (s.m_State ≠ State.Jumping → s.m_JumpImmuneTimer ≤ 0) →
      RunCalls Calls s = some s' →
      (s'.m_State ≠ State.Jumping → s'.m_JumpImmuneTimer ≤ 0) := by
    intro Calls
    induction Calls with
    | nil =>
      intro s s' hInv h
      cases h
      exact hInv
    | cons c cs ih =>
      intro s s' hInv h
      obtain ⟨s1, h1, h2⟩ := Option.bind_eq_some.mp h
      refine ih s1 s' ?_ h2
      cases c with
      | TickCall E DeltaTime => exact Tick_timer_invariant E DeltaTime s s1 h1 hInv
      | JumpCall E JumpPower =>
        cases h1
        exact Jump_timer_invariant E JumpPower s hInv
  have hInv := hStep Calls s0 s' (fun _ => by rw [hTimer]) hRun
  refine ⟨hInv, ?_⟩
  intro hJ
  by_contra hNot
  have hle := hInv hNot
  unfold IsJumping at hJ
  rw [decide_eq_true_iff] at hJ
  exact absurd hJ (not_lt.mpr hle)

/-- A `Jumping` frame with a controller attached whose timer has not expired. -/
theorem Jumping_running (E : Engine) (DeltaTime : ℚ) (s : ABaseSpider) (r : FRotator)
    (hCtl : E.Controller = some r) (hT : ¬ s.m_JumpImmuneTimer - DeltaTime < 0) :
    ∃ s', Jumping E DeltaTime s = some s' ∧ s'.m_State = s.m_State ∧
      s'.m_JumpImmuneTimer = s.m_JumpImmuneTimer - DeltaTime := by
  obtain ⟨s2, hS⟩ : ∃ s2, StandardFalling E DeltaTime
      { s with m_JumpImmuneTimer := s.m_JumpImmuneTimer - DeltaTime } = some s2 :=
    ⟨_, StandardFalling_some E _ _ r hCtl⟩
  have hJ : Jumping E DeltaTime s = some { s2 with m_OldState := State.Jumping } := by
    unfold Jumping
    dsimp only
    rw [if_neg hT, hS]
    rfl
  obtain ⟨e1, e2, -, -, -⟩ := StandardFalling_eq_some hS
  exact ⟨_, hJ, e1, e2⟩

/-- A `Jumping` frame in which the timer expires. -/
theorem Jumping_expired (E : Engine) (DeltaTime : ℚ) (s : ABaseSpider)
    (hT : s.m_JumpImmuneTimer - DeltaTime < 0) :
    Jumping E DeltaTime s =
      some { s with
        m_JumpImmuneTimer := s.m_JumpImmuneTimer - DeltaTime, m_State := State.Fall } := by
  unfold Jumping
  dsimp only
  rw [if_pos hT]

/-- `Tick` in state `Jumping` runs the `Jumping` handler and keeps its state and timer. -/
theorem Tick_Jumping (E : Engine) (DeltaTime : ℚ) (s s1 : ABaseSpider)
    (hs : s.m_State = State.Jumping) (h : Jumping E DeltaTime s = some s1) :
    ∃ s', Tick E DeltaTime s = some s' ∧ s'.m_State = s1.m_State ∧
      s'.m_JumpImmuneTimer = s1.m_JumpImmuneTimer := by
  unfold Tick
  rw [hs]
  dsimp only
  rw [h]
  exact ⟨_, rfl, rfl, rfl⟩

/-- C21 at a concrete input: the controller as constructed jumps from the floor, spends a
frame of 1/60 in `Jumping` and leaves it in a frame of 1/5; it ends in `Fall` with the timer
at most 0. -/
theorem C21_IsJumping_implies_Jumping_witness :
    ∃ s', RunCalls C21_Calls {} = some s' ∧ s'.m_State = State.Fall ∧
      s'.m_JumpImmuneTimer ≤ 0 := by
  have hg : (CheckGrounded FloorEngine {}).1 = true := by
    rw [CheckGrounded_fst]
    norm_num [FloorEngine, LevelEngine, FloorHit, SpiderUp, FVector.sub, FVector.smul,
      FVector.zero, RAYCAST_LENGTH]
  have hJs : (Jump FloorEngine 500 {}).m_State = State.Jumping := by
    simp only [Jump, hg]
    rfl
  have hJt : (Jump FloorEngine 500 {}).m_JumpImmuneTimer = 1 / 10 := by
    simp only [Jump, hg]
    rfl
  obtain ⟨s1, h1, e1, t1⟩ := Jumping_running FloorEngine (1 / 60) (Jump FloorEngine 500 {}) {}
    rfl (by rw [hJt]; norm_num)
  obtain ⟨s2, h2, e2, t2⟩ := Tick_Jumping FloorEngine (1 / 60) _ s1 hJs h1
  have hs2 : s2.m_State = State.Jumping := by rw [e2, e1, hJs]
  have ht2 : s2.m_JumpImmuneTimer = 1 / 12 := by
    rw [t2, t1, hJt]; norm_num
  obtain ⟨s3, h3, e3, -⟩ := Tick_Jumping FloorEngine (1 / 5) s2 _ hs2
    (Jumping_expired FloorEngine (1 / 5) s2 (by rw [ht2]; norm_num))
  have hRun : RunCalls C21_Calls {} = some s3 := by
    show ((some (Jump FloorEngine 500 {})).bind fun s =>
      (Tick FloorEngine (1 / 60) s).bind fun s =>
        (Tick FloorEngine (1 / 5) s).bind fun s => some s) = some s3
    rw [Option.some_bind, h2, Option.some_bind, h3]
    rfl
  have hs3 : s3.m_State = State.Fall := e3
  exact ⟨s3, hRun, hs3, (C21_IsJumping_implies_Jumping C21_Calls {} s3 rfl hRun).1
    (by rw [hs3]; decide)⟩

theorem FVector.add_zero (v : FVector) : v.add FVector.zero = v := by
  ext <;> simp [FVector.add, FVector.zero]

theorem FVector.add_smul_add_smul (v p : FVector) (a b : ℚ) :
    (v.add (p.smul a)).add (p.smul b) = v.add (p.smul (a + b)) := by
  ext <;> simp only [FVector.add, FVector.smul] <;> ring

theorem FVector.add_sub_cancel_left (v w : FVector) : (v.add w).sub v = w := by
  ext <;> simp [FVector.add, FVector.sub]

theorem FVector.smul_sub_self (p : FVector) (t : ℚ) :
    (p.smul t).sub p = p.smul (t - 1) := by
  ext <;> simp only [FVector.sub, FVector.smul] <;> ring

/-- One frame in state `Transition` with the lerp in progress, against an engine whose swept
move by the zero offset does not move: the timer grows by the lerp step and the collider is
offset by `m_StickPosition` times that step. -/
theorem Tick_Transition_step (E : Engine) (DeltaTime : ℚ) (s s' : ABaseSpider)
    (hs : s.m_State = State.Transition)
    (hT : IsTransitioning s = true)
    (hSweep : ∀ Location, E.SweepMove Location FVector.zero = Location)
    (h : Tick E DeltaTime s = some s') :
    s'.m_State = State.Transition ∧
      s'.m_StickPosition = s.m_StickPosition ∧
      s'.m_LerpRatio = s.m_LerpRatio ∧
      s'.WallInterpolateTime = s.WallInterpolateTime ∧
      s'.m_LerpTimer =
        s.m_LerpTimer + s.m_LerpRatio * DeltaTime / s.WallInterpolateTime ∧
      s'.ColliderLocation =
        s.ColliderLocation.add
          (s.m_StickPosition.smul (s.m_LerpRatio * DeltaTime / s.WallInterpolateTime)) := by
  have hIn : 0 ≤ s.m_LerpTimer ∧ s.m_LerpTimer ≤ 1 := (IsTransitioning_iff s).mp hT
  obtain ⟨s1, h1, rfl⟩ := Tick_eq_some h
  rw [hs] at h1
  dsimp only at h1
  cases hc : E.Controller with
  | none => rw [Transition_none E DeltaTime s hc hIn] at h1; cases h1
  | some r =>
    rw [Transition_in_progress E DeltaTime s r hIn hc] at h1
    cases h1
    refine ⟨hs, rfl, rfl, rfl, rfl, ?_⟩
    show E.SweepMove _ (FVector.zero.smul DeltaTime) = _
    rw [FVector.zero_smul, hSweep]
    rfl

/-- Over any number of consecutive in-progress `Transition` frames the target offset is kept
and the collider moves by `m_StickPosition` times the growth of `m_LerpTimer`. -/
theorem TransitionFrames_offset (Frames : List (Engine × ℚ)) :
    ∀ (s s' : ABaseSpider),
      (∀ f ∈ Frames, ∀ Location, f.1.SweepMove Location FVector.zero = Location) →
      TransitionFrames Frames s = some s' →
      s'.m_StickPosition = s.m_StickPosition ∧
        s'.ColliderLocation =
          s.ColliderLocation.add (s.m_StickPosition.smul (s'.m_LerpTimer - s.m_LerpTimer)) := by
  induction Frames with
  | nil =>
    intro s s' _ h
    cases h
    refine ⟨rfl, ?_⟩
    rw [sub_self, FVector.smul_zero, FVector.add_zero]
  | cons f fs ih =>
    intro s s' hSweep h
    unfold TransitionFrames at h
    split at h
    · next hc =>
      obtain ⟨s1, h1, h2⟩ := Option.bind_eq_some.mp h
      obtain ⟨-, e2, -, -, e5, e6⟩ := Tick_Transition_step f.1 f.2 s s1 hc.1 hc.2
        (hSweep f (List.mem_cons_self f fs)) h1
      obtain ⟨i1, i2⟩ := ih s1 s' (fun g hg => hSweep g (List.mem_cons_of_mem f hg)) h2
      refine ⟨i1.trans e2, ?_⟩
      rw [i2, e2, e6, FVector.add_smul_add_smul, e5]
      congr 2
      ring
    · cases h

/-- C22. After a `SetTransition` and any number of consecutive `Transition` frames with the
lerp in progress (the velocity offset of each frame being zero), the total world offset of
the collider since `SetTransition` is `m_StickPosition * m_LerpTimer`; so once `m_LerpTimer`
has passed 1 the creature has moved past the target offset `m_StickPosition`, by
`m_StickPosition * (m_LerpTimer - 1)`.  Here `s1` is the state in which the first of these
frames starts: it has the timer, target offset and location that `SetTransition` left. -/
theorem C22_transition_offset (E0 : Engine) (HitResult : FHitResult) (s0 s1 s' : ABaseSpider)
    (Frames : List (Engine × ℚ))
    (hTimer : s1.m_LerpTimer = (SetTransition E0 HitResult s0).m_LerpTimer)
    (hStick : s1.m_StickPosition = (SetTransition E0 HitResult s0).m_StickPosition)
    (hLocation : s1.ColliderLocation = (SetTransition E0 HitResult s0).ColliderLocation)
    (hSweep : ∀ f ∈ Frames, ∀ Location, f.1.SweepMove Location FVector.zero = Location)
    (hRun : TransitionFrames Frames s1 = some s') :
    s'.m_StickPosition = (SetTransition E0 HitResult s0).m_StickPosition ∧
      s'.ColliderLocation.sub s0.ColliderLocation =
        (SetTransition E0 HitResult s0).m_StickPosition.smul s'.m_LerpTimer ∧
      (1 < s'.m_LerpTimer →
        (s'.ColliderLocation.sub s0.ColliderLocation).sub
            (SetTransition E0 HitResult s0).m_StickPosition =
          (SetTransition E0 HitResult s0).m_StickPosition.smul (s'.m_LerpTimer - 1) ∧
        0 < s'.m_LerpTimer - 1) := by
  have hT0 : (SetTransition E0 HitResult s0).m_LerpTimer = 0 := by
    rw [SetTransition_eq]
  have hL0 : (SetTransition E0 HitResult s0).ColliderLocation = s0.ColliderLocation := by
    rw [SetTransition_eq]
  obtain ⟨i1, i2⟩ := TransitionFrames_offset Frames s1 s' hSweep hRun
  have hOff : s'.ColliderLocation.sub s0.ColliderLocation =
      (SetTransition E0 HitResult s0).m_StickPosition.smul s'.m_LerpTimer := by
    rw [i2, hLocation, hL0, hStick, hTimer, hT0, sub_zero, FVector.add_sub_cancel_left]
  refine ⟨i1.trans hStick, hOff, ?_⟩
  intro hOver
  refine ⟨?_, by linarith⟩
  rw [hOff, FVector.smul_sub_self]

theorem FVector.sub_zero (v : FVector) : v.sub FVector.zero = v := by
  ext <;> simp [FVector.sub, FVector.zero]

/-- A frame in state `Transition` with the lerp in progress returns when a controller is
attached. -/
theorem Tick_Transition_some (E : Engine) (DeltaTime : ℚ) (s : ABaseSpider) (r : FRotator)
    (hs : s.m_State = State.Transition)
    (hT : IsTransitioning s = true)
    (hCtl : E.Controller = some r) :
    ∃ s', Tick E DeltaTime s = some s' := by
  have hIn : 0 ≤ s.m_LerpTimer ∧ s.m_LerpTimer ≤ 1 := (IsTransitioning_iff s).mp hT
  unfold Tick
  rw [hs]
  dsimp only
  rw [Transition_in_progress E DeltaTime s r hIn hCtl]
  exact ⟨_, rfl⟩

theorem SetTransition_m_StickPosition (E : Engine) (HitResult : FHitResult) (s : ABaseSpider) :
    (SetTransition E HitResult s).m_StickPosition =
      (HitResult.Location.add
        (HitResult.ImpactNormal.smul (E.ScaledCapsuleRadius * (21 / 20)))).sub
          s.ColliderLocation := by
  rw [SetTransition_eq]

/-- C22 at a concrete input: from the controller as constructed, `SetTransition` onto the
floor sample gives the target offset `(0, 0, 21)` and the rate `10/7`; two frames of 1/4 take
the timer to `50/49 > 1` and the collider to `(0, 0, 150/7)`, past the target `(0, 0, 21)`. -/
theorem C22_transition_offset_witness :
    ∃ s', TransitionFrames [(FloorEngine, 1 / 4), (FloorEngine, 1 / 4)] C22_Spider = some s' ∧
      s'.m_LerpTimer = 50 / 49 ∧ s'.ColliderLocation = ⟨0, 0, 150 / 7⟩ := by
  have hSweep : ∀ Location, FloorEngine.SweepMove Location FVector.zero = Location :=
    fun Location => FVector.add_zero Location
  have hR : C22_Spider.m_LerpRatio = 10 / 7 := by
    simp [C22_Spider, SetTransition, CalcLerpRatio, CalcSurfaceStickPoint, LerpAngle,
      FloorEngine, LevelEngine, SpiderUp, FVector.Dot, FVector.zero]
    norm_num
  have hW : C22_Spider.WallInterpolateTime = 7 / 10 := by
    show (SetTransition FloorEngine (FloorHit 10) {}).WallInterpolateTime = 7 / 10
    rw [SetTransition_eq]
  have hT0 : C22_Spider.m_LerpTimer = 0 := rfl
  have hP : (SetTransition FloorEngine (FloorHit 10) {}).m_StickPosition = ⟨0, 0, 21⟩ := by
    rw [SetTransition_m_StickPosition]
    norm_num [FloorHit, FloorEngine, LevelEngine, FVector.add, FVector.sub, FVector.smul,
      FVector.zero]
  have hI0 : IsTransitioning C22_Spider = true := by
    rw [IsTransitioning_iff, hT0]; norm_num
  obtain ⟨sA, hA⟩ := Tick_Transition_some FloorEngine (1 / 4) C22_Spider {} rfl hI0 rfl
  obtain ⟨a1, -, a3, a4, a5, -⟩ :=
    Tick_Transition_step FloorEngine (1 / 4) C22_Spider sA rfl hI0 hSweep hA
  have hTA : sA.m_LerpTimer = 25 / 49 := by
    rw [a5, hT0, hR, hW]; norm_num
  have hIA : IsTransitioning sA = true := by
    rw [IsTransitioning_iff, hTA]; norm_num
  obtain ⟨sB, hB⟩ := Tick_Transition_some FloorEngine (1 / 4) sA {} a1 hIA rfl
  obtain ⟨-, -, -, -, b5, -⟩ :=
    Tick_Transition_step FloorEngine (1 / 4) sA sB a1 hIA hSweep hB
  have hTB : sB.m_LerpTimer = 50 / 49 := by
    rw [b5, hTA, a3, a4, hR, hW]; norm_num
  have hRun : TransitionFrames [(FloorEngine, 1 / 4), (FloorEngine, 1 / 4)] C22_Spider
      = some sB := by
    unfold TransitionFrames
    rw [if_pos ⟨rfl, hI0⟩]
    dsimp only
    rw [hA, Option.some_bind]
    unfold TransitionFrames
    rw [if_pos ⟨a1, hIA⟩]
    dsimp only
    rw [hB, Option.some_bind]
    rfl
  obtain ⟨-, hOff, -⟩ := C22_transition_offset FloorEngine (FloorHit 10) {} C22_Spider sB
    [(FloorEngine, 1 / 4), (FloorEngine, 1 / 4)] rfl rfl rfl
    (by
      intro f hf Location
      simp only [List.mem_cons, List.mem_singleton, List.not_mem_nil, or_false, or_self] at hf
      rw [hf]
      exact hSweep Location)
    hRun
  refine ⟨sB, hRun, hTB, ?_⟩
  have hz : ({} : ABaseSpider).ColliderLocation = FVector.zero := rfl
  rw [hz, FVector.sub_zero, hP, hTB] at hOff
  rw [hOff]
  norm_num [FVector.smul]

/-- The arc cosine of an engine brought into range stays below the threshold 90. -/
theorem WithAcosInRange_lt (E : Engine) (x : ℚ) : (WithAcosInRange E).Acos x < 90 := by
  show min (max (E.Acos x) 0) (22 / 7) < 90
  exact lt_of_le_of_lt (min_le_right _ _) (by norm_num)

/-- The rate stored by `SetTransition` is the one `CalcLerpRatio` computes on the state
before the call: the hit passed has no part in it. -/
theorem SetTransition_m_LerpRatio (E : Engine) (HitResult : FHitResult) (s : ABaseSpider) :
    (SetTransition E HitResult s).m_LerpRatio = (CalcLerpRatio E s).m_LerpRatio := by
  unfold SetTransition CalcLerpRatio
  dsimp only
  have hA : LerpAngle E (CalcSurfaceStickPoint E HitResult s) = LerpAngle E s := rfl
  rw [hA]
  split <;> rfl

/-- The `Ground` frame of the walking spider with a surface 50 ahead and the floor
unchanged. -/
theorem Grounded_wall_ahead (Forward : FHitResult) (hV : Forward.IsValidBlockingHit = true)
    (hD : Forward.Distance = 50) :
    Grounded (C7_Engine Forward) (1 / 60) C7_Spider =
      some (StopAllSounds
        { SetTransition (C7_Engine Forward) Forward
            { C7_Spider with m_ForwardHitResult := Forward } with
          m_State := State.Transition, m_Velocity := FVector.zero }) := by
  have hs2 : (CheckWall (C7_Engine Forward) (CheckGrounded (C7_Engine Forward) C7_Spider).2).2 =
      { C7_Spider with m_ForwardHitResult := Forward } := by
    norm_num [CheckWall, CheckGrounded, HitWall, C7_Engine, RadianEngine, C7_Spider, LevelEngine,
      SpiderUp, SpiderForward, FVector.add, FVector.sub, FVector.smul, RAYCAST_LENGTH, hV, hD]
  have h := Grounded_wall (C7_Engine Forward) (1 / 60) C7_Spider
    (by
      rw [hs2]
      norm_num [ChangedGround, C7_Engine, RadianEngine, LevelEngine, C7_Spider, FloorHit,
        FVector.Equals, NORMAL_TOLERANCE])
    (by
      rw [hs2]
      norm_num [HitWall, IsMoving, C7_Spider, FVector.SquaredLength, FLT_EPSILON, hV, hD])
  rw [h, hs2]

/-- What `CalcLerpRatio` reads is the same before and after `SetTransition` and the entry
into `Transition`: the angle and `WallInterpolateTime`; the rate of the entered state is the
one `CalcLerpRatio` computes on the state before the call. -/
theorem SetTransition_entry (E : Engine) (HitResult : FHitResult) (s : ABaseSpider) :
    LerpAngle E (StopAllSounds
        { SetTransition E HitResult s with
          m_State := State.Transition, m_Velocity := FVector.zero }) = LerpAngle E s ∧
      (StopAllSounds
        { SetTransition E HitResult s with
          m_State := State.Transition, m_Velocity := FVector.zero }).WallInterpolateTime =
        s.WallInterpolateTime ∧
      (StopAllSounds
        { SetTransition E HitResult s with
          m_State := State.Transition, m_Velocity := FVector.zero }).m_LerpRatio =
        (CalcLerpRatio E s).m_LerpRatio := by
  refine ⟨?_, ?_, SetTransition_m_LerpRatio E HitResult s⟩
  · rw [SetTransition_eq]
    rfl
  · rw [SetTransition_eq]
    rfl

/-- C7 fails on the code. The local `Angle` is the result of `FMath::Acos`, radians of at
most `π`, and is compared with the threshold `90`: for every engine whose arc cosine is in
that range and every state `CalcLerpRatio` stores `1 / WallInterpolateTime`, so no angle is
slowed down.  A spider walking into a vertical wall (up `+Z` against the normal `-X`, 90
degrees) enters `Transition` with the angle `11/7` and the rate `10/7`, which is
`1 / WallInterpolateTime`; walking under an overhang of normal `(-3/5, 0, -4/5)` (about 143
degrees) it enters `Transition` with the angle `5/2` and the same rate `10/7`, not a smaller
one. -/
theorem C7_slow_down_never_taken :
    (∀ (E : Engine) (s : ABaseSpider),
      (CalcLerpRatio (WithAcosInRange E) s).m_LerpRatio = 1 / s.WallInterpolateTime) ∧
    (∃ s', Grounded (C7_Engine (WallHit 50)) (1 / 60) C7_Spider = some s' ∧
      s'.m_State = State.Transition ∧
      LerpAngle (C7_Engine (WallHit 50)) s' = 11 / 7 ∧
      s'.m_LerpRatio = 10 / 7 ∧ 1 / s'.WallInterpolateTime = 10 / 7) ∧
    (∃ s', Grounded (C7_Engine OverhangHit) (1 / 60) C7_Spider = some s' ∧
      s'.m_State = State.Transition ∧
      LerpAngle (C7_Engine OverhangHit) s' = 5 / 2 ∧
      s'.m_LerpRatio = 10 / 7 ∧ 1 / s'.WallInterpolateTime = 10 / 7) := by
  refine ⟨fun E s => CalcLerpRatio_small _ s (WithAcosInRange_lt E _), ?_, ?_⟩
  · have hA : LerpAngle (C7_Engine (WallHit 50))
        { C7_Spider with m_ForwardHitResult := WallHit 50 } = 11 / 7 := by
      norm_num [LerpAngle, SpiderUp, C7_Engine, RadianEngine, LevelEngine, RadianAcos, WallHit,
        FVector.Dot]
    have hW : 1 / ({ C7_Spider with m_ForwardHitResult := WallHit 50 } :
        ABaseSpider).WallInterpolateTime = 10 / 7 := by
      norm_num [C7_Spider]
    obtain ⟨e1, e2, e3⟩ := SetTransition_entry (C7_Engine (WallHit 50)) (WallHit 50)
      { C7_Spider with m_ForwardHitResult := WallHit 50 }
    refine ⟨_, Grounded_wall_ahead (WallHit 50) rfl rfl, rfl, e1.trans hA, ?_, ?_⟩
    · rw [e3, CalcLerpRatio_small _ _ (by rw [hA]; norm_num)]
      exact hW
    · rw [e2]
      exact hW
  · have hA : LerpAngle (C7_Engine OverhangHit)
        { C7_Spider with m_ForwardHitResult := OverhangHit } = 5 / 2 := by
      norm_num [LerpAngle, SpiderUp, C7_Engine, RadianEngine, LevelEngine, RadianAcos,
        OverhangHit, FVector.Dot]
    have hW : 1 / ({ C7_Spider with m_ForwardHitResult := OverhangHit } :
        ABaseSpider).WallInterpolateTime = 10 / 7 := by
      norm_num [C7_Spider]
    obtain ⟨e1, e2, e3⟩ := SetTransition_entry (C7_Engine OverhangHit) OverhangHit
      { C7_Spider with m_ForwardHitResult := OverhangHit }
    refine ⟨_, Grounded_wall_ahead OverhangHit rfl rfl, rfl, e1.trans hA, ?_, ?_⟩
    · rw [e3, CalcLerpRatio_small _ _ (by rw [hA]; norm_num)]
      exact hW
    · rw [e2]
      exact hW

/-- C18 as stated fails for distinct end points that are close: with the line from `(2,0,0)`
to `(2 + 1/20000, 0, 0)` (squared length below the tolerance of `Normalize`) the vector
between the end points is used as it is, and an `OnWeb` frame that stays on the web with input
`Y = 1` leaves the velocity `(1/20, 0, 0)`.  The unit vector between the end points is
`(1, 0, 0)`, for which the claimed velocity is `(1000, 0, 0)`; and no unit vector `d` gives
the velocity of the code as `s * d * (inputY * MovementSpeed)`. -/
theorem C18_short_line_not_unit_counterexample :
    C18_SpiderShort.m_StartLinePoint ≠ C18_SpiderShort.m_EndLinePoint ∧
    C18_SpiderShort.m_EndLinePoint.sub C18_SpiderShort.m_StartLinePoint =
      (⟨1, 0, 0⟩ : FVector).smul (1 / 20000) ∧
    ∃ s', OnWeb FloorEngine (1 / 60) C18_SpiderShort = some s' ∧
      s'.m_Velocity = ⟨1 / 20, 0, 0⟩ ∧
      s'.m_Velocity ≠
        ((⟨1, 0, 0⟩ : FVector).smul
          (Sign ((FloorEngine.GetForwardVector C18_SpiderShort.ColliderRotation ⟨0, 0, 0⟩).Dot
            ⟨1, 0, 0⟩))).smul
          (C18_SpiderShort.ControlInputVector.Y * C18_SpiderShort.MovementSpeed) ∧
      ¬ ∃ d : FVector, d.SquaredLength = 1 ∧
        s'.m_Velocity =
          (d.smul
            (Sign ((FloorEngine.GetForwardVector C18_SpiderShort.ColliderRotation
              ⟨0, 0, 0⟩).Dot d))).smul
            (C18_SpiderShort.ControlInputVector.Y * C18_SpiderShort.MovementSpeed) := by
  have hShort :
      (C18_SpiderShort.m_EndLinePoint.sub C18_SpiderShort.m_StartLinePoint).SquaredLength
        ≤ UE_SMALL_NUMBER := by
    norm_num [C18_SpiderShort, FVector.sub, FVector.SquaredLength, UE_SMALL_NUMBER]
  obtain ⟨s', h1, h2⟩ := OnWeb_walk_velocity FloorEngine (1 / 60) C18_SpiderShort {} rfl
    (by
      rw [CheckGrounded_fst]
      norm_num [FloorEngine, LevelEngine, FloorHit, C18_SpiderShort, SpiderUp, FVector.sub,
        FVector.smul, RAYCAST_LENGTH])
    (by
      rw [CheckWall_fst]
      norm_num [ForwardTrace, FloorEngine, LevelEngine, C18_SpiderShort, SpiderForward,
        FVector.add, FVector.smul, RAYCAST_LENGTH])
  have hv : s'.m_Velocity = ⟨1 / 20, 0, 0⟩ := by
    rw [h2, Normalize_short _ _ hShort]
    norm_num [C18_SpiderShort, FloorEngine, LevelEngine, FVector.sub, FVector.smul, FVector.Dot,
      Sign]
  refine ⟨?_, ?_, s', h1, hv, ?_, ?_⟩
  · intro h
    have := congrArg FVector.X h
    norm_num [C18_SpiderShort] at this
  · norm_num [C18_SpiderShort, FVector.sub, FVector.smul]
  · rw [hv]
    intro h
    have := congrArg FVector.X h
    norm_num [C18_SpiderShort, FloorEngine, LevelEngine, FVector.smul, FVector.Dot, Sign] at this
  · rintro ⟨d, hd, h⟩
    have hL := congrArg FVector.SquaredLength h
    rw [hv, FVector.SquaredLength_smul, FVector.SquaredLength_smul, hd] at hL
    unfold Sign at hL
    split_ifs at hL <;>
      norm_num [C18_SpiderShort, FVector.SquaredLength] at hL

end SpiderGame
